import Mathlib

/-!
Shallow embedding of the e-ticketing backend core (Go, gorm) and proofs about
its purchase, sale-window, payment and transfer flows.

Modelling conventions:
* The relational store is a `DB` record of row lists; gorm `Create`/`Save`/
  `Delete` calls become pure `DB → DB` updates, gorm lookups become `List.find?`.
* Go `float64` money amounts are modelled as `Int` (no claim in scope depends
  on floating-point rounding); `uint` ids as `Nat`; Unix timestamps as `Int`.
* Every repository *write* in a request can fail, mirroring the `err` value a
  gorm call returns.  A request carries a fault schedule `Sched : Nat → Bool`
  (`true` = the k-th write of the request succeeds); on a failed write the
  service returns the error exactly where the Go code does, keeping all
  previously committed writes — this mirrors the sequential, non-transactional
  mutation style of the services.  Reads are assumed to succeed.
* `errors.New "..."` sites are mirrored by constructors of the closed `Err`
  type, one per distinct message; messages built with `+` keep their dynamic
  part as a constructor argument.
* The payment gateway outcome (`rand.Float64() < 0.9`) is nondeterministic in
  the source and is passed in as a `Bool` parameter `gw`.
* `time.Now().Unix()` is passed in as the parameter `now`.
-/

namespace ETicketing

/-- models/event.go `EventStatus` (constants 1..4). -/
inductive EventStatus
  | pending
  | approved
  | rejected
  | cancelled
deriving DecidableEq, Repr

/-- models/transfer.go `TransferStatus` (constants 1..4). -/
inductive TransferStatus
  | pending
  | accepted
  | rejected
  | cancelled
deriving DecidableEq, Repr

/-- models/payment.go `PaymentStatus` (constants 1..4). -/
inductive PaymentStatus
  | pending
  | completed
  | failed
  | refunded
deriving DecidableEq, Repr

/-- models/payment.go `PaymentType` (card/paypal/googlepay/stripe), kept abstract. -/
abbrev PaymentType := Nat

/-- models/ticket.go `TicketType` (regular/vip/premium), kept abstract. -/
abbrev TicketType := Nat

/-- models/user.go `UserType`, kept abstract (zero value = unset, as in Go). -/
abbrev UserType := Nat

/-- models/ticket.go `Ticket`. -/
structure Ticket where
  id : Nat
  price : Int
  isHeld : Bool
  isSold : Bool
  ttype : TicketType
  isVip : Bool
  title : String
  description : String
  place : String
  saleId : Nat
  eventId : Nat
deriving DecidableEq, Repr

/-- models/ticket.go `PurchasedTicket`. -/
structure PurchasedTicket where
  id : Nat
  price : Int
  ttype : TicketType
  isVip : Bool
  title : String
  description : String
  place : String
  userId : Nat
  ticketId : Nat
  isUsed : Bool
  usedAt : Option Int
deriving DecidableEq, Repr

/-- models/event.go `Sale`. -/
structure Sale where
  id : Nat
  startDate : Int
  endDate : Int
  eventId : Nat
deriving DecidableEq, Repr

/-- models/event.go `Event` (display-only fields kept minimal). -/
structure Event where
  id : Nat
  title : String
  description : String
  date : Int
  address : String
  sellerId : Nat
  status : EventStatus
deriving DecidableEq, Repr

/-- models/payment.go `Payment`. -/
structure Payment where
  id : Nat
  userId : Nat
  userType : UserType
  date : Int
  ptype : PaymentType
  amount : Int
  status : PaymentStatus
  description : String
  eventId : Nat
deriving DecidableEq, Repr

/-- models/transfer.go `ActiveTicketTransfer`. -/
structure ActiveTicketTransfer where
  id : Nat
  fromUserId : Nat
  toUserId : Nat
  date : Int
  purchasedTicketId : Nat
  status : TransferStatus
deriving DecidableEq, Repr

/-- models/transfer.go `DoneTicketTransfer`. -/
structure DoneTicketTransfer where
  id : Nat
  fromUserId : Nat
  toUserId : Nat
  date : Int
  purchasedTicketId : Nat
  completedAt : Int
deriving DecidableEq, Repr

/-- models/user.go `User` (only the fields the core flows read). -/
structure User where
  id : Nat
  email : String
deriving DecidableEq, Repr

/-- The relational store: one list per table plus the next auto-increment key.
gorm assigns primary keys on `Create`; `nextId` models the shared sequence. -/
structure DB where
  tickets : List Ticket
  purchased : List PurchasedTicket
  sales : List Sale
  events : List Event
  payments : List Payment
  activeTransfers : List ActiveTicketTransfer
  doneTransfers : List DoneTicketTransfer
  users : List User
  nextId : Nat
deriving DecidableEq, Repr

/-- Closed set of `errors.New` sites reachable in the modelled flows, one
constructor per distinct message; dynamic message parts are arguments. -/
inductive Err
  | saleNotFound
  | saleNotActive
  | eventNotFound
  | eventNotApproved
  | notEnoughTickets
  | paymentProcessingFailed (inner : Err)
  | paymentFailed (msg : String)
  | failedToUpdateTicketStatus
  | failedToCreatePurchasedTicket
  | paymentAmountNotPositive
  | failedToCreatePaymentRecord
  | failedToUpdatePaymentStatus
  | realPaymentNotImplemented
  | paymentNotFound
  | canOnlyRefundCompleted
  | failedToProcessRefund
  | ticketNotFound
  | ticketNotAvailable
  | bulkPurchaseNotImplemented
  | transferNotFound
  | unauthorizedAccept
  | unauthorizedReject
  | transferNotPending
  | failedToUpdateTransferStatus
  | failedToFindPurchasedTicket
  | failedToTransferOwnership
  | purchasedTicketNotFound
  | unauthorizedTransfer
  | cannotTransferUsedTicket
  | recipientNotFound
  | cannotTransferToSelf
  | failedToCreateTransfer
  | unauthorizedCreateTickets
  | saleNotOfEvent
  | failedToCreateTickets
  | unauthorizedUpdateTickets
  | noUnsoldTicketsFound
  | failedToUpdateTickets
  | unauthorizedDeleteTickets
  | failedToDeleteTickets
  | saleStartNotFuture
  | saleEndNotAfterStart
  | unauthorizedSale
  | eventNotApprovedForSale
  | saleDatesOverlap
  | failedToCreateSale
  | cannotUpdateActiveSale
  | failedToUpdateSale
deriving DecidableEq, Repr

/-- Fault schedule for one request: `sched k = true` means the k-th repository
write of the request succeeds; `false` that it returns a database error. -/
abbrev Sched := Nat → Bool

/-- Request-local mutable state: the store plus the count of writes attempted
so far (the index into the fault schedule). -/
structure St where
  db : DB
  writes : Nat
deriving Repr

/-- Attempt the next repository write: apply it if the schedule allows,
otherwise report failure (`none`), leaving earlier writes committed. -/
def tryWrite (sched : Sched) (st : St) (apply : DB → DB) : Option St :=
  if sched st.writes then some ⟨apply st.db, st.writes + 1⟩ else none

/-! Repository reads (gorm lookups / filtered queries). -/

/-- repositories: `saleRepo.GetByID`. -/
def SaleRepoGetByID (db : DB) (id : Nat) : Option Sale :=
  db.sales.find? (fun s => s.id == id)

/-- repositories: `eventRepo.GetByID`. -/
def EventRepoGetByID (db : DB) (id : Nat) : Option Event :=
  db.events.find? (fun e => e.id == id)

/-- repositories: `purchasedTicketRepo.GetByID`. -/
def PurchasedRepoGetByID (db : DB) (id : Nat) : Option PurchasedTicket :=
  db.purchased.find? (fun p => p.id == id)

/-- repositories: `paymentRepo.GetByID`. -/
def PaymentRepoGetByID (db : DB) (id : Nat) : Option Payment :=
  db.payments.find? (fun p => p.id == id)

/-- repositories: `transferRepo.GetActiveByID`. -/
def TransferRepoGetActiveByID (db : DB) (id : Nat) : Option ActiveTicketTransfer :=
  db.activeTransfers.find? (fun t => t.id == id)

/-- repositories: `userRepo.GetByEmail`. -/
def UserRepoGetByEmail (db : DB) (email : String) : Option User :=
  db.users.find? (fun u => u.email == email)

/-- repositories: `ticketRepo.GetByID` / `GetByIDForUpdate` (the row lock is a
transaction-scope artefact with no effect on the returned data). -/
def TicketRepoGetByID (db : DB) (id : Nat) : Option Ticket :=
  db.tickets.find? (fun t => t.id == id)

/-- ticket_repository.go `FindAndLockAvailableTickets`: inside its own (and
immediately committed) transaction, select up to `quantity` rows matching the
group key with `is_sold = false AND is_held = false`.  The `FOR UPDATE` row
locks last only until this inner transaction commits, i.e. until the function
returns, so they leave no trace in the returned data or the store. -/
def FindAndLockAvailableTickets (db : DB) (eventId : Nat) (price : Int)
    (ttype : TicketType) (isVip : Bool) (title place : String) (saleId : Nat)
    (quantity : Nat) : List Ticket :=
  (db.tickets.filter (fun t =>
    t.eventId == eventId && t.price == price && t.ttype == ttype &&
    t.isVip == isVip && t.title == title && t.place == place &&
    t.saleId == saleId && t.isSold == false && t.isHeld == false)).take quantity

/-- ticket_repository.go `ListByGroupCriteria`. -/
def ListByGroupCriteria (db : DB) (eventId : Nat) (price : Int)
    (ttype : TicketType) (isVip : Bool) (title place : String) (saleId : Nat)
    (includeSold : Bool) : List Ticket :=
  db.tickets.filter (fun t =>
    t.eventId == eventId && t.price == price && t.ttype == ttype &&
    t.isVip == isVip && t.title == title && t.place == place &&
    t.saleId == saleId && (includeSold || t.isSold == false))

/-- transfer_repository.go `HasActiveTransferForTicket`: count of Pending
transfers for the ticket is positive.  (Declared in the repository interface;
see the transfer theorems for whether the services actually consult it.) -/
def HasActiveTransferForTicket (db : DB) (ticketId : Nat) : Bool :=
  0 < (db.activeTransfers.filter (fun t =>
    t.purchasedTicketId == ticketId && t.status == TransferStatus.pending)).length

/-- repositories: `saleRepo.ListByEvent`. -/
def SaleRepoListByEvent (db : DB) (eventId : Nat) : List Sale :=
  db.sales.filter (fun s => s.eventId == eventId)

/-! Repository writes (gorm `Create` / `Save` / `Delete`), as `DB → DB`. -/

/-- `ticketRepo.Create`: insert with the next auto-increment key. -/
def DB.ticketCreate (t : Ticket) (db : DB) : DB :=
  { db with tickets := db.tickets ++ [t], nextId := db.nextId + 1 }

/-- `ticketRepo.Update` (gorm `Save`): replace the row with the same key. -/
def DB.ticketUpdate (t : Ticket) (db : DB) : DB :=
  { db with tickets := db.tickets.map (fun q => if q.id = t.id then t else q) }

/-- `ticketRepo.Delete`: remove the row with the key. -/
def DB.ticketDelete (id : Nat) (db : DB) : DB :=
  { db with tickets := db.tickets.filter (fun q => q.id ≠ id) }

/-- `purchasedTicketRepo.Create`. -/
def DB.purchasedCreate (p : PurchasedTicket) (db : DB) : DB :=
  { db with purchased := db.purchased ++ [p], nextId := db.nextId + 1 }

/-- `purchasedTicketRepo.Update`. -/
def DB.purchasedUpdate (p : PurchasedTicket) (db : DB) : DB :=
  { db with purchased := db.purchased.map (fun q => if q.id = p.id then p else q) }

/-- `paymentRepo.Create`. -/
def DB.paymentCreate (p : Payment) (db : DB) : DB :=
  { db with payments := db.payments ++ [p], nextId := db.nextId + 1 }

/-- `paymentRepo.Update`. -/
def DB.paymentUpdate (p : Payment) (db : DB) : DB :=
  { db with payments := db.payments.map (fun q => if q.id = p.id then p else q) }

/-- `transferRepo.CreateActive`. -/
def DB.activeCreate (t : ActiveTicketTransfer) (db : DB) : DB :=
  { db with activeTransfers := db.activeTransfers ++ [t], nextId := db.nextId + 1 }

/-- `transferRepo.UpdateActive`. -/
def DB.activeUpdate (t : ActiveTicketTransfer) (db : DB) : DB :=
  { db with activeTransfers :=
      db.activeTransfers.map (fun q => if q.id = t.id then t else q) }

/-- `transferRepo.CreateDone`. -/
def DB.doneCreate (t : DoneTicketTransfer) (db : DB) : DB :=
  { db with doneTransfers := db.doneTransfers ++ [t], nextId := db.nextId + 1 }

/-- `saleRepo.Create`. -/
def DB.saleCreate (s : Sale) (db : DB) : DB :=
  { db with sales := db.sales ++ [s], nextId := db.nextId + 1 }

/-- `saleRepo.Update`. -/
def DB.saleUpdate (s : Sale) (db : DB) : DB :=
  { db with sales := db.sales.map (fun q => if q.id = s.id then s else q) }

/-! payment_service.go -/

/-- payment_service.go `PaymentRequest`. -/
structure PaymentRequest where
  userId : Nat
  userType : UserType
  amount : Int
  paymentMethod : PaymentType
  description : String
  eventId : Nat
deriving DecidableEq, Repr

/-- payment_service.go `PaymentResponse`. -/
structure PaymentResponse where
  paymentId : Nat
  status : PaymentStatus
  amount : Int
  transactionId : String
  message : String
deriving DecidableEq, Repr

/-- The `fmt.Sprintf "MOCK_%d_%d"` transaction id. -/
def mockTransactionId (paymentId : Nat) (now : Int) : String :=
  "MOCK_" ++ toString paymentId ++ "_" ++ toString now

/-- payment_service.go `processMockPayment`: flip the Pending record to
Completed or Failed according to the gateway outcome `gw` and persist it.
The `time.Sleep` delay and the `rand` draw (externalised as `gw`) have no
state effect. -/
def processMockPayment (sched : Sched) (gw : Bool) (now : Int) (p : Payment)
    (st : St) : (Except Err PaymentResponse) × St :=
  if gw then
    match tryWrite sched st (DB.paymentUpdate { p with status := .completed }) with
    | none => (.error .failedToUpdatePaymentStatus, st)
    | some st1 =>
      (.ok { paymentId := p.id, status := .completed, amount := p.amount,
             transactionId := mockTransactionId p.id now,
             message := "Payment processed successfully" }, st1)
  else
    match tryWrite sched st (DB.paymentUpdate { p with status := .failed }) with
    | none => (.error .failedToUpdatePaymentStatus, st)
    | some st1 =>
      (.ok { paymentId := p.id, status := .failed, amount := p.amount,
             transactionId := "",
             message := "Payment failed - insufficient funds or card declined" }, st1)

/-- payment_service.go `createSellerPayment`: credit 95% of the amount to the
event's seller as a Completed payment (0.95 modelled as `* 95 / 100`). -/
def createSellerPayment (sched : Sched) (now : Int) (eventId : Nat)
    (amount : Int) (description : String) (st : St) : (Except Err Unit) × St :=
  match EventRepoGetByID st.db eventId with
  | none => (.error .eventNotFound, st)
  | some event =>
    let sellerPayment : Payment :=
      { id := st.db.nextId, userId := event.sellerId, userType := 2, date := now,
        ptype := 1, amount := amount * 95 / 100, status := .completed,
        description := "Revenue from: " ++ description, eventId := eventId }
    match tryWrite sched st (DB.paymentCreate sellerPayment) with
    | none => (.error .failedToCreatePaymentRecord, st)
    | some st1 => (.ok (), st1)

/-- payment_service.go `ProcessPayment` (mock mode per `mockMode`): reject a
non-positive amount up front, create the Pending record, run the mock gateway,
and on a completed event-linked payment credit the seller (that last failure
is only printed, never propagated). -/
def ProcessPayment (sched : Sched) (gw : Bool) (now : Int) (mockMode : Bool)
    (req : PaymentRequest) (st : St) : (Except Err PaymentResponse) × St :=
  if req.amount ≤ 0 then (.error .paymentAmountNotPositive, st)
  else
    let customerPayment : Payment :=
      { id := st.db.nextId, userId := req.userId, userType := req.userType,
        date := now, ptype := req.paymentMethod, amount := req.amount,
        status := .pending, description := req.description, eventId := req.eventId }
    match tryWrite sched st (DB.paymentCreate customerPayment) with
    | none => (.error .failedToCreatePaymentRecord, st)
    | some st1 =>
      if mockMode then
        match processMockPayment sched gw now customerPayment st1 with
        | (.error e, st2) => (.error e, st2)
        | (.ok resp, st2) =>
          if resp.status = .completed ∧ 0 < req.eventId then
            (.ok resp, (createSellerPayment sched now req.eventId req.amount
                          req.description st2).2)
          else (.ok resp, st2)
      else (.error .realPaymentNotImplemented, st1)

/-- payment_service.go `RefundPayment`. -/
def RefundPayment (sched : Sched) (paymentId : Nat) (db : DB) :
    (Except Err Unit) × DB :=
  match PaymentRepoGetByID db paymentId with
  | none => (.error .paymentNotFound, db)
  | some p =>
    if p.status ≠ .completed then (.error .canOnlyRefundCompleted, db)
    else
      match tryWrite sched ⟨db, 0⟩ (DB.paymentUpdate { p with status := .refunded }) with
      | none => (.error .failedToProcessRefund, db)
      | some st1 => (.ok (), st1.db)

/-! ticket_service.go -/

/-- ticket_service.go `PurchaseTicketFromGroupRequest`. -/
structure PurchaseTicketFromGroupRequest where
  userId : Nat
  eventId : Nat
  price : Int
  ttype : TicketType
  isVip : Bool
  title : String
  description : String
  place : String
  saleId : Nat
  quantity : Nat
  paymentMethod : PaymentType
deriving DecidableEq, Repr

/-- ticket_service.go `PurchasedTicketInfo`. -/
structure PurchasedTicketInfo where
  id : Nat
  ticketId : Nat
  title : String
  description : String
  place : String
  price : Int
  eventTitle : String
  eventDate : Int
  eventId : Nat
  isUsed : Bool
deriving DecidableEq, Repr

/-- ticket_service.go `PurchaseTicketResponse`. -/
structure PurchaseTicketResponse where
  purchasedTickets : List PurchasedTicketInfo
  paymentInfo : PaymentResponse
  totalAmount : Int
deriving DecidableEq, Repr

/-- The post-payment loop of `PurchaseTicketFromGroup` (lines 371-412): for
each locked ticket, mark it sold (write), create the snapshot row (write), and
collect the response info; each failing write returns immediately, keeping all
earlier writes — the Go code's `TODO: Implement rollback mechanism` sites. -/
def sellLoop (sched : Sched) (userId : Nat) (event : Event) :
    List Ticket → St → (Except Err (List PurchasedTicketInfo)) × St
  | [], st => (.ok [], st)
  | t :: rest, st =>
    match tryWrite sched st (DB.ticketUpdate { t with isSold := true }) with
    | none => (.error .failedToUpdateTicketStatus, st)
    | some st1 =>
      let pt : PurchasedTicket :=
        { id := st1.db.nextId, price := t.price, ttype := t.ttype,
          isVip := t.isVip, title := t.title, description := t.description,
          place := t.place, userId := userId, ticketId := t.id,
          isUsed := false, usedAt := none }
      match tryWrite sched st1 (DB.purchasedCreate pt) with
      | none => (.error .failedToCreatePurchasedTicket, st1)
      | some st2 =>
        match sellLoop sched userId event rest st2 with
        | (.error e, st3) => (.error e, st3)
        | (.ok infos, st3) =>
          (.ok ({ id := pt.id, ticketId := t.id, title := t.title,
                  description := t.description, place := t.place,
                  price := t.price, eventTitle := event.title,
                  eventDate := event.date, eventId := event.id,
                  isUsed := false } :: infos), st3)

/-- ticket_service.go `PurchaseTicketFromGroup`: validate the sale window and
event approval, select-and-lock the group units (the repository commits that
inner transaction, and with it the row locks, before returning), fail if short,
charge the gateway, then run the non-transactional sell loop. -/
def PurchaseTicketFromGroup (sched : Sched) (gw : Bool) (now : Int)
    (req : PurchaseTicketFromGroupRequest) (db : DB) :
    (Except Err PurchaseTicketResponse) × DB :=
  match SaleRepoGetByID db req.saleId with
  | none => (.error .saleNotFound, db)
  | some sale =>
    if now < sale.startDate ∨ now > sale.endDate then (.error .saleNotActive, db)
    else
      match EventRepoGetByID db req.eventId with
      | none => (.error .eventNotFound, db)
      | some event =>
        if event.status ≠ .approved then (.error .eventNotApproved, db)
        else
          let availableTickets := FindAndLockAvailableTickets db req.eventId
            req.price req.ttype req.isVip req.title req.place req.saleId req.quantity
          if availableTickets.length < req.quantity then (.error .notEnoughTickets, db)
          else
            let totalAmount := req.price * (req.quantity : Int)
            let paymentReq : PaymentRequest :=
              { userId := req.userId, userType := 0, amount := totalAmount,
                paymentMethod := req.paymentMethod,
                description := "Ticket purchase for " ++ req.title ++ " - " ++ event.title,
                eventId := 0 }
            match ProcessPayment sched gw now true paymentReq ⟨db, 0⟩ with
            | (.error e, st1) => (.error (.paymentProcessingFailed e), st1.db)
            | (.ok paymentResponse, st1) =>
              if paymentResponse.status ≠ .completed then
                (.error (.paymentFailed paymentResponse.message), st1.db)
              else
                match sellLoop sched req.userId event
                    (availableTickets.take req.quantity) st1 with
                | (.error e, st2) => (.error e, st2.db)
                | (.ok infos, st2) =>
                  (.ok { purchasedTickets := infos,
                         paymentInfo := paymentResponse,
                         totalAmount := totalAmount }, st2.db)

/-- ticket_service.go `PurchaseTicketRequest` (legacy single-unit path). -/
structure PurchaseTicketRequest where
  userId : Nat
  ticketId : Nat
  quantity : Nat
  paymentMethod : PaymentType
deriving DecidableEq, Repr

/-- ticket_service.go `PurchaseTicket` (legacy single-unit path): lock-read the
ticket, check availability and the sale window, reject bulk, charge the
gateway, then mark sold and snapshot (sequentially, as in the group path). -/
def PurchaseTicket (sched : Sched) (gw : Bool) (now : Int)
    (req : PurchaseTicketRequest) (db : DB) :
    (Except Err PurchaseTicketResponse) × DB :=
  match TicketRepoGetByID db req.ticketId with
  | none => (.error .ticketNotFound, db)
  | some ticket =>
    if ticket.isSold || ticket.isHeld then (.error .ticketNotAvailable, db)
    else
      match SaleRepoGetByID db ticket.saleId with
      | none => (.error .saleNotFound, db)
      | some sale =>
        if now < sale.startDate ∨ now > sale.endDate then (.error .saleNotActive, db)
        else if 1 < req.quantity then (.error .bulkPurchaseNotImplemented, db)
        else
          let totalAmount := ticket.price * (req.quantity : Int)
          let paymentReq : PaymentRequest :=
            { userId := req.userId, userType := 0, amount := totalAmount,
              paymentMethod := req.paymentMethod,
              description := "Ticket purchase for " ++ ticket.title, eventId := 0 }
          match ProcessPayment sched gw now true paymentReq ⟨db, 0⟩ with
          | (.error e, st1) => (.error (.paymentProcessingFailed e), st1.db)
          | (.ok paymentResponse, st1) =>
            if paymentResponse.status ≠ .completed then
              (.error (.paymentFailed paymentResponse.message), st1.db)
            else
              match tryWrite sched st1 (DB.ticketUpdate { ticket with isSold := true }) with
              | none => (.error .failedToUpdateTicketStatus, st1.db)
              | some st2 =>
                let pt : PurchasedTicket :=
                  { id := st2.db.nextId, price := ticket.price, ttype := ticket.ttype,
                    isVip := ticket.isVip, title := ticket.title,
                    description := ticket.description, place := ticket.place,
                    userId := req.userId, ticketId := ticket.id,
                    isUsed := false, usedAt := none }
                match tryWrite sched st2 (DB.purchasedCreate pt) with
                | none => (.error .failedToCreatePurchasedTicket, st2.db)
                | some st3 =>
                  let eventTitle := match EventRepoGetByID st3.db ticket.eventId with
                    | some e => e.title
                    | none => ""
                  let eventDate : Int := match EventRepoGetByID st3.db ticket.eventId with
                    | some e => e.date
                    | none => 0
                  (.ok { purchasedTickets :=
                           [{ id := pt.id, ticketId := ticket.id, title := ticket.title,
                              description := ticket.description, place := ticket.place,
                              price := ticket.price, eventTitle := eventTitle,
                              eventDate := eventDate, eventId := ticket.eventId,
                              isUsed := false }],
                         paymentInfo := paymentResponse,
                         totalAmount := totalAmount }, st3.db)

/-- ticket_service.go `CreateTicketRequest`. -/
structure CreateTicketRequest where
  price : Int
  ttype : TicketType
  isVip : Bool
  title : String
  description : String
  place : String
  saleId : Nat
  eventId : Nat
  amount : Nat
deriving DecidableEq, Repr

/-- The creation loop of `CreateTickets`: `amount` inserts, stopping on the
first failing write. -/
def createLoop (sched : Sched) (req : CreateTicketRequest) :
    Nat → St → (Except Err Unit) × St
  | 0, st => (.ok (), st)
  | n + 1, st =>
    let ticket : Ticket :=
      { id := st.db.nextId, price := req.price, isHeld := false, isSold := false,
        ttype := req.ttype, isVip := req.isVip, title := req.title,
        description := req.description, place := req.place,
        saleId := req.saleId, eventId := req.eventId }
    match tryWrite sched st (DB.ticketCreate ticket) with
    | none => (.error .failedToCreateTickets, st)
    | some st1 => createLoop sched req n st1

/-- ticket_service.go `CreateTickets`. -/
def CreateTickets (sched : Sched) (req : CreateTicketRequest) (sellerId : Nat)
    (db : DB) : (Except Err Unit) × DB :=
  match EventRepoGetByID db req.eventId with
  | none => (.error .eventNotFound, db)
  | some event =>
    if event.sellerId ≠ sellerId then (.error .unauthorizedCreateTickets, db)
    else
      match SaleRepoGetByID db req.saleId with
      | none => (.error .saleNotFound, db)
      | some sale =>
        if sale.eventId ≠ req.eventId then (.error .saleNotOfEvent, db)
        else
          let r := createLoop sched req req.amount ⟨db, 0⟩
          (r.1, r.2.db)

/-- ticket_service.go `GroupedTicket` key fields used by update/delete. -/
structure GroupedTicket where
  price : Int
  ttype : TicketType
  isVip : Bool
  title : String
  description : String
  place : String
  saleId : Nat
  eventId : Nat
deriving DecidableEq, Repr

/-- ticket_service.go `UpdateTicketRequest` (optional fields, Go `*T`). -/
structure UpdateTicketRequest where
  price : Option Int
  ttype : Option TicketType
  isVip : Option Bool
  title : Option String
  description : Option String
  place : Option String
  saleId : Option Nat
deriving DecidableEq, Repr

/-- The per-ticket field patch of the `UpdateTickets` loop, sans the SaleID
branch (which carries its own validation). -/
def applyTicketPatch (req : UpdateTicketRequest) (t : Ticket) : Ticket :=
  { t with price := req.price.getD t.price, ttype := req.ttype.getD t.ttype,
           isVip := req.isVip.getD t.isVip, title := req.title.getD t.title,
           description := req.description.getD t.description,
           place := req.place.getD t.place }

/-- The update loop of `UpdateTickets` (lines 486-520): patch each fetched
(unsold) ticket, validate a requested sale move, and save; a failing write or
validation returns immediately, keeping earlier updates. -/
def updLoop (sched : Sched) (eventId : Nat) (req : UpdateTicketRequest) :
    List Ticket → St → (Except Err Unit) × St
  | [], st => (.ok (), st)
  | t :: rest, st =>
    let patched := applyTicketPatch req t
    match req.saleId with
    | none =>
      match tryWrite sched st (DB.ticketUpdate patched) with
      | none => (.error .failedToUpdateTickets, st)
      | some st1 => updLoop sched eventId req rest st1
    | some sid =>
      match SaleRepoGetByID st.db sid with
      | none => (.error .saleNotFound, st)
      | some sale =>
        if sale.eventId ≠ eventId then (.error .saleNotOfEvent, st)
        else
          match tryWrite sched st (DB.ticketUpdate { patched with saleId := sid }) with
          | none => (.error .failedToUpdateTickets, st)
          | some st1 => updLoop sched eventId req rest st1

/-- ticket_service.go `UpdateTickets`: ownership check, fetch the unsold
tickets of the old group key, then patch-and-save each one. -/
def UpdateTickets (sched : Sched) (eventId sellerId : Nat) (old : GroupedTicket)
    (req : UpdateTicketRequest) (db : DB) : (Except Err Unit) × DB :=
  match EventRepoGetByID db eventId with
  | none => (.error .eventNotFound, db)
  | some event =>
    if event.sellerId ≠ sellerId then (.error .unauthorizedUpdateTickets, db)
    else
      let tickets := ListByGroupCriteria db eventId old.price old.ttype
        old.isVip old.title old.place old.saleId false
      if tickets.length = 0 then (.error .noUnsoldTicketsFound, db)
      else
        let r := updLoop sched eventId req tickets ⟨db, 0⟩
        (r.1, r.2.db)

/-- The deletion loop of `DeleteTickets`. -/
def delLoop (sched : Sched) : List Ticket → St → (Except Err Unit) × St
  | [], st => (.ok (), st)
  | t :: rest, st =>
    match tryWrite sched st (DB.ticketDelete t.id) with
    | none => (.error .failedToDeleteTickets, st)
    | some st1 => delLoop sched rest st1

/-- ticket_service.go `DeleteTickets`: ownership check, fetch the unsold
tickets of the group key, then delete each one. -/
def DeleteTickets (sched : Sched) (eventId sellerId : Nat)
    (groupedTicket : GroupedTicket) (db : DB) : (Except Err Unit) × DB :=
  match EventRepoGetByID db eventId with
  | none => (.error .eventNotFound, db)
  | some event =>
    if event.sellerId ≠ sellerId then (.error .unauthorizedDeleteTickets, db)
    else
      let tickets := ListByGroupCriteria db eventId groupedTicket.price
        groupedTicket.ttype groupedTicket.isVip groupedTicket.title
        groupedTicket.place groupedTicket.saleId false
      if tickets.length = 0 then (.error .noUnsoldTicketsFound, db)
      else
        let r := delLoop sched tickets ⟨db, 0⟩
        (r.1, r.2.db)

/-! transfer_service.go -/

/-- transfer_service.go `InitiateTransferRequest`. -/
structure InitiateTransferRequest where
  fromUserId : Nat
  toUserEmail : String
  purchasedTicketId : Nat
deriving DecidableEq, Repr

/-- transfer_service.go `TransferResponse` (core fields; the user-info and
ticket-info display blocks are omitted as response formatting). -/
structure TransferResponse where
  id : Nat
  status : TransferStatus
  date : Int
deriving DecidableEq, Repr

/-- transfer_service.go `InitiateTransfer` (lines 46-122): ownership, unused
and recipient checks, then create the Pending record.  The service performs no
check against an existing Pending transfer for the same ticket (the repository
method `HasActiveTransferForTicket` has no caller). -/
def InitiateTransfer (sched : Sched) (now : Int) (req : InitiateTransferRequest)
    (db : DB) : (Except Err TransferResponse) × DB :=
  match PurchasedRepoGetByID db req.purchasedTicketId with
  | none => (.error .purchasedTicketNotFound, db)
  | some purchasedTicket =>
    if purchasedTicket.userId ≠ req.fromUserId then (.error .unauthorizedTransfer, db)
    else if purchasedTicket.isUsed then (.error .cannotTransferUsedTicket, db)
    else
      match UserRepoGetByEmail db req.toUserEmail with
      | none => (.error .recipientNotFound, db)
      | some toUser =>
        if toUser.id = req.fromUserId then (.error .cannotTransferToSelf, db)
        else
          let transfer : ActiveTicketTransfer :=
            { id := db.nextId, fromUserId := req.fromUserId, toUserId := toUser.id,
              date := now, purchasedTicketId := req.purchasedTicketId,
              status := .pending }
          match tryWrite sched ⟨db, 0⟩ (DB.activeCreate transfer) with
          | none => (.error .failedToCreateTransfer, db)
          | some st1 =>
            (.ok { id := transfer.id, status := transfer.status,
                   date := transfer.date }, st1.db)

/-- transfer_service.go `AcceptTransfer` (lines 168-215): recipient and
Pending checks, then three sequential effects — save status Accepted, save the
new owner, append the DoneTransfer (whose failure is deliberately ignored:
"Log error but don't fail the transfer").  No enclosing transaction. -/
def AcceptTransfer (sched : Sched) (now : Int) (transferId userId : Nat)
    (db : DB) : (Except Err Unit) × DB :=
  match TransferRepoGetActiveByID db transferId with
  | none => (.error .transferNotFound, db)
  | some transfer =>
    if transfer.toUserId ≠ userId then (.error .unauthorizedAccept, db)
    else if transfer.status ≠ .pending then (.error .transferNotPending, db)
    else
      match tryWrite sched ⟨db, 0⟩
          (DB.activeUpdate { transfer with status := .accepted }) with
      | none => (.error .failedToUpdateTransferStatus, db)
      | some st1 =>
        match PurchasedRepoGetByID st1.db transfer.purchasedTicketId with
        | none => (.error .failedToFindPurchasedTicket, st1.db)
        | some purchasedTicket =>
          match tryWrite sched st1
              (DB.purchasedUpdate { purchasedTicket with userId := transfer.toUserId }) with
          | none => (.error .failedToTransferOwnership, st1.db)
          | some st2 =>
            let doneTransfer : DoneTicketTransfer :=
              { id := st2.db.nextId, fromUserId := transfer.fromUserId,
                toUserId := transfer.toUserId, date := transfer.date,
                purchasedTicketId := transfer.purchasedTicketId,
                completedAt := now }
            match tryWrite sched st2 (DB.doneCreate doneTransfer) with
            | none => (.ok (), st2.db)
            | some st3 => (.ok (), st3.db)

/-- transfer_service.go `RejectTransfer` (lines 217-239): recipient and
Pending checks, then save status Rejected; no ownership change. -/
def RejectTransfer (sched : Sched) (transferId userId : Nat) (db : DB) :
    (Except Err Unit) × DB :=
  match TransferRepoGetActiveByID db transferId with
  | none => (.error .transferNotFound, db)
  | some transfer =>
    if transfer.toUserId ≠ userId then (.error .unauthorizedReject, db)
    else if transfer.status ≠ .pending then (.error .transferNotPending, db)
    else
      match tryWrite sched ⟨db, 0⟩
          (DB.activeUpdate { transfer with status := .rejected }) with
      | none => (.error .failedToUpdateTransferStatus, db)
      | some st1 => (.ok (), st1.db)

/-! sale_service.go -/

/-- sale_service.go `isSaleActive`: `currentTime >= start && currentTime <= end`. -/
def isSaleActive (sale : Sale) (currentTime : Int) : Bool :=
  sale.startDate ≤ currentTime && currentTime ≤ sale.endDate

/-- sale_service.go `datesOverlap`: `start1 < end2 && start2 < end1`. -/
def datesOverlap (start1 end1 start2 end2 : Int) : Bool :=
  start1 < end2 && start2 < end1

/-- sale_service.go `CreateSaleRequest`. -/
structure CreateSaleRequest where
  startDate : Int
  endDate : Int
  eventId : Nat
deriving DecidableEq, Repr

/-- sale_service.go `UpdateSaleRequest`; as in the Go struct, a zero value
means "field not provided". -/
structure UpdateSaleRequest where
  startDate : Int
  endDate : Int
deriving DecidableEq, Repr

/-- sale_service.go `CreateSale`: date validity, event ownership and approval,
then reject if the proposed window overlaps any existing window of the event,
else insert. -/
def CreateSale (sched : Sched) (now : Int) (req : CreateSaleRequest)
    (sellerId : Nat) (db : DB) : (Except Err Sale) × DB :=
  if req.startDate ≤ now then (.error .saleStartNotFuture, db)
  else if req.endDate ≤ req.startDate then (.error .saleEndNotAfterStart, db)
  else
    match EventRepoGetByID db req.eventId with
    | none => (.error .eventNotFound, db)
    | some event =>
      if event.sellerId ≠ sellerId then (.error .unauthorizedSale, db)
      else if event.status ≠ .approved then (.error .eventNotApprovedForSale, db)
      else
        let existingSales := SaleRepoListByEvent db req.eventId
        if existingSales.any (fun s =>
            datesOverlap req.startDate req.endDate s.startDate s.endDate) then
          (.error .saleDatesOverlap, db)
        else
          let sale : Sale := { id := db.nextId, startDate := req.startDate,
                               endDate := req.endDate, eventId := req.eventId }
          match tryWrite sched ⟨db, 0⟩ (DB.saleCreate sale) with
          | none => (.error .failedToCreateSale, db)
          | some st1 => (.ok sale, st1.db)

/-- sale_service.go `UpdateSale`: ownership, not-yet-active and date checks,
then reject if the effective window overlaps another window of the same event
(the sale itself excluded), else save the provided fields. -/
def UpdateSale (sched : Sched) (now : Int) (saleId sellerId : Nat)
    (req : UpdateSaleRequest) (db : DB) : (Except Err Sale) × DB :=
  match SaleRepoGetByID db saleId with
  | none => (.error .saleNotFound, db)
  | some sale =>
    match EventRepoGetByID db sale.eventId with
    | none => (.error .eventNotFound, db)
    | some _event =>
      if _event.sellerId ≠ sellerId then (.error .unauthorizedSale, db)
      else if isSaleActive sale now then (.error .cannotUpdateActiveSale, db)
      else if req.startDate ≠ 0 ∧ req.startDate ≤ now then (.error .saleStartNotFuture, db)
      else
        let startDate := if req.startDate ≠ 0 then req.startDate else sale.startDate
        let endDate := if req.endDate ≠ 0 then req.endDate else sale.endDate
        if endDate ≤ startDate then (.error .saleEndNotAfterStart, db)
        else
          let existingSales := SaleRepoListByEvent db sale.eventId
          if existingSales.any (fun s =>
              s.id ≠ saleId &&
              datesOverlap startDate endDate s.startDate s.endDate) then
            (.error .saleDatesOverlap, db)
          else
            let sale1 := { sale with
              startDate := if req.startDate ≠ 0 then req.startDate else sale.startDate,
              endDate := if req.endDate ≠ 0 then req.endDate else sale.endDate }
            match tryWrite sched ⟨db, 0⟩ (DB.saleUpdate sale1) with
            | none => (.error .failedToUpdateSale, db)
            | some st1 => (.ok sale1, st1.db)

/-! Shared helpers for the theorems. -/

/-- The fault-free schedule: every repository write succeeds. -/
def schedAll : Sched := fun _ => true

/-- The `sold` flag never goes back from `true` to `false`: any row of `after`
carrying the id of a sold row of `before` is itself sold. -/
def soldMonotone (before after : List Ticket) : Prop :=
  ∀ t ∈ before, t.isSold = true → ∀ t' ∈ after, t'.id = t.id → t'.isSold = true

theorem soldMonotone_rfl {l : List Ticket} (hnodup : (l.map Ticket.id).Nodup) :
    soldMonotone l l := by
  intro t ht hsold t' ht' hid
  have := List.inj_on_of_nodup_map hnodup ht' ht hid
  rw [this]; exact hsold

theorem soldMonotone_of_subset {orig cur : List Ticket}
    (h : soldMonotone orig orig) (hsub : ∀ t' ∈ cur, t' ∈ orig) :
    soldMonotone orig cur := by
  intro t ht hsold t' ht' hid
  exact h t ht hsold t' (hsub t' ht') hid

theorem soldMonotone_update_sold {orig cur : List Ticket} {t1 : Ticket}
    (h : soldMonotone orig cur) (h1 : t1.isSold = true) :
    soldMonotone orig (cur.map fun q => if q.id = t1.id then t1 else q) := by
  intro t ht hsold t' ht' hid
  rcases List.mem_map.mp ht' with ⟨q, hq, hqeq⟩
  by_cases hc : q.id = t1.id
  · rw [if_pos hc] at hqeq; rw [← hqeq]; exact h1
  · rw [if_neg hc] at hqeq; exact h t ht hsold t' (hqeq ▸ hq) hid

theorem soldMonotone_update_freshId {orig cur : List Ticket} {t1 : Ticket}
    (h : soldMonotone orig cur)
    (hid1 : ∀ t ∈ orig, t.isSold = true → t1.id ≠ t.id) :
    soldMonotone orig (cur.map fun q => if q.id = t1.id then t1 else q) := by
  intro t ht hsold t' ht' hid
  rcases List.mem_map.mp ht' with ⟨q, hq, hqeq⟩
  by_cases hc : q.id = t1.id
  · rw [if_pos hc] at hqeq
    exact absurd (hqeq ▸ hid : t1.id = t.id) (hid1 t ht hsold)
  · rw [if_neg hc] at hqeq; exact h t ht hsold t' (hqeq ▸ hq) hid

theorem soldMonotone_filter {orig cur : List Ticket}
    (h : soldMonotone orig cur) (p : Ticket → Bool) :
    soldMonotone orig (cur.filter p) := by
  intro t ht hsold t' ht' hid
  exact h t ht hsold t' (List.mem_of_mem_filter ht') hid

theorem soldMonotone_append_freshId {orig cur : List Ticket} {t1 : Ticket}
    (h : soldMonotone orig cur)
    (hid1 : ∀ t ∈ orig, t.isSold = true → t1.id ≠ t.id) :
    soldMonotone orig (cur ++ [t1]) := by
  intro t ht hsold t' ht' hid
  rcases List.mem_append.mp ht' with hin | hin
  · exact h t ht hsold t' hin hid
  · rcases List.mem_singleton.mp hin with rfl
    exact absurd hid (hid1 t ht hsold)

/-- C2: insufficient locked inventory fails the grouped purchase with the
insufficient-inventory error and leaves the whole store untouched. -/
theorem purchase_group_insufficient_inventory_no_effect
    (sched : Sched) (gw : Bool) (now : Int)
    (req : PurchaseTicketFromGroupRequest) (db : DB) (sale : Sale) (event : Event)
    (hsale : SaleRepoGetByID db req.saleId = some sale)
    (hlo : sale.startDate ≤ now) (hhi : now ≤ sale.endDate)
    (hev : EventRepoGetByID db req.eventId = some event)
    (happ : event.status = .approved)
    (hshort : (FindAndLockAvailableTickets db req.eventId req.price req.ttype
      req.isVip req.title req.place req.saleId req.quantity).length < req.quantity) :
    PurchaseTicketFromGroup sched gw now req db = (.error .notEnoughTickets, db) := by
  have hact : ¬(now < sale.startDate ∨ now > sale.endDate) := by omega
  unfold PurchaseTicketFromGroup
  rw [hsale]
  simp only [hact, if_false, reduceIte]
  rw [hev]
  simp [happ, hshort]

/-- The post-payment sell loop can only fail with one of its two write
errors. -/
theorem sellLoop_error_cases (sched : Sched) (userId : Nat) (event : Event) :
    ∀ (ts : List Ticket) (st : St) (e : Err),
      (sellLoop sched userId event ts st).1 = .error e →
      e = .failedToUpdateTicketStatus ∨ e = .failedToCreatePurchasedTicket := by
  intro ts
  induction ts with
  | nil => intro st e h; simp [sellLoop] at h
  | cons t rest ih =>
    intro st e h
    unfold sellLoop at h
    cases htw : tryWrite sched st (DB.ticketUpdate { t with isSold := true }) with
    | none => rw [htw] at h; simp at h; exact Or.inl h.symm
    | some st1 =>
      rw [htw] at h
      simp only at h
      cases htw2 : tryWrite sched st1 (DB.purchasedCreate
          { id := st1.db.nextId, price := t.price, ttype := t.ttype,
            isVip := t.isVip, title := t.title, description := t.description,
            place := t.place, userId := userId, ticketId := t.id,
            isUsed := false, usedAt := none }) with
      | none => rw [htw2] at h; simp at h; exact Or.inr h.symm
      | some st2 =>
        rw [htw2] at h
        simp only at h
        cases hrec : sellLoop sched userId event rest st2 with
        | mk res st3 =>
          rw [hrec] at h
          cases res with
          | error e' => simp at h; exact h ▸ ih st2 e' (by rw [hrec])
          | ok infos => simp at h

/-- C7: with the sale loaded, a purchase outside `[startDate, endDate]` fails
with the sale-not-active error, and inside the bounds (inclusive) the window
check passes: whatever happens next, it is not the sale-not-active error. -/
theorem purchase_sale_window_gate
    (sched : Sched) (gw : Bool) (now : Int)
    (req : PurchaseTicketFromGroupRequest) (db : DB) (sale : Sale)
    (hsale : SaleRepoGetByID db req.saleId = some sale) :
    ((now < sale.startDate ∨ now > sale.endDate) →
      (PurchaseTicketFromGroup sched gw now req db).1 = .error .saleNotActive)
    ∧ (sale.startDate ≤ now → now ≤ sale.endDate →
      (PurchaseTicketFromGroup sched gw now req db).1 ≠ .error .saleNotActive) := by
  constructor
  · intro hout
    unfold PurchaseTicketFromGroup
    rw [hsale]
    simp [hout]
  · intro hlo hhi
    have hact : ¬(now < sale.startDate ∨ now > sale.endDate) := by omega
    unfold PurchaseTicketFromGroup
    rw [hsale]
    simp only [hact, if_false, reduceIte]
    cases hev : EventRepoGetByID db req.eventId with
    | none => simp
    | some event =>
      simp only
      by_cases happ : event.status = .approved
      · simp only [happ, ne_eq, not_true_eq_false, if_false, reduceIte]
        by_cases hshort : (FindAndLockAvailableTickets db req.eventId req.price
            req.ttype req.isVip req.title req.place req.saleId
            req.quantity).length < req.quantity
        · simp [hshort]
        · simp only [hshort, if_false, reduceIte]
          cases hpp : ProcessPayment sched gw now true
              { userId := req.userId, userType := 0,
                amount := req.price * (req.quantity : Int),
                paymentMethod := req.paymentMethod,
                description := "Ticket purchase for " ++ req.title ++ " - " ++ event.title,
                eventId := 0 } ⟨db, 0⟩ with
          | mk res st1 =>
            cases res with
            | error e => simp
            | ok paymentResponse =>
              simp only
              by_cases hst : paymentResponse.status = .completed
              · simp only [hst, ne_eq, not_true_eq_false, if_false, reduceIte]
                cases hsl : sellLoop sched req.userId event
                    (List.take req.quantity (FindAndLockAvailableTickets db
                      req.eventId req.price req.ttype req.isVip req.title
                      req.place req.saleId req.quantity)) st1 with
                | mk res2 st2 =>
                  cases res2 with
                  | error e' =>
                    simp only
                    intro hcontra
                    have : e' = Err.saleNotActive := by
                      injection hcontra
                    rcases sellLoop_error_cases sched req.userId event _ st1 e'
                        (by rw [hsl]) with h | h <;> simp [this] at h
                  | ok infos => simp
              · simp [hst]
      · simp [happ]

/-- C6: a transfer whose record is already in a terminal state (Accepted,
Rejected or Cancelled) can be neither accepted nor rejected again by its
recipient: both calls fail with the not-pending conflict error and leave the
store unchanged. -/
theorem transfer_terminal_state_frozen
    (sched : Sched) (now : Int) (db : DB) (transferId userId : Nat)
    (transfer : ActiveTicketTransfer)
    (ht : TransferRepoGetActiveByID db transferId = some transfer)
    (huser : transfer.toUserId = userId)
    (hterm : transfer.status = .accepted ∨ transfer.status = .rejected ∨
      transfer.status = .cancelled) :
    AcceptTransfer sched now transferId userId db = (.error .transferNotPending, db)
    ∧ RejectTransfer sched transferId userId db = (.error .transferNotPending, db) := by
  have hnp : transfer.status ≠ .pending := by
    rcases hterm with h | h | h <;> simp [h]
  constructor
  · unfold AcceptTransfer; rw [ht]; simp [huser, hnp]
  · unfold RejectTransfer; rw [ht]; simp [huser, hnp]

/-- C10: `ProcessPayment` rejects a non-positive amount before any side
effect, so a payment record can only ever be created for a strictly positive
amount. -/
theorem process_payment_positive_amount_guard
    (sched : Sched) (gw : Bool) (now : Int) (mockMode : Bool)
    (req : PaymentRequest) (st : St) :
    (req.amount ≤ 0 →
      ProcessPayment sched gw now mockMode req st = (.error .paymentAmountNotPositive, st))
    ∧ ((ProcessPayment sched gw now mockMode req st).2.db.payments ≠ st.db.payments →
      0 < req.amount) := by
  constructor
  · intro h; unfold ProcessPayment; rw [if_pos h]
  · intro h
    rcases lt_or_le 0 req.amount with hpos | hle
    · exact hpos
    · exfalso
      apply h
      unfold ProcessPayment
      rw [if_pos hle]

/-- A keyed in-place update leaves a row list untouched when no row carries
the key (gorm `Save` touches only its own primary key). -/
theorem map_keyed_update_id {α : Type} (key : α → Nat) (k : Nat) (x : α) :
    ∀ l : List α, (∀ q ∈ l, key q ≠ k) →
      l.map (fun q => if key q = k then x else q) = l := by
  intro l
  induction l with
  | nil => intro _; rfl
  | cons a as ih =>
    intro h
    simp only [List.map_cons, if_neg (h a (List.mem_cons_self a as)), List.cons.injEq,
      true_and]
    exact ih (fun q hq => h q (List.mem_cons_of_mem a hq))

/-- C5: when the gateway declines, the grouped purchase returns the
payment-failed error, no ticket is marked sold and no snapshot row is created
(the store changes only by the one payment record, which ends in status
Failed), and every targeted unit was and stays unsold. -/
theorem purchase_group_gateway_failure_no_effect
    (now : Int) (req : PurchaseTicketFromGroupRequest) (db : DB)
    (sale : Sale) (event : Event)
    (hsale : SaleRepoGetByID db req.saleId = some sale)
    (hlo : sale.startDate ≤ now) (hhi : now ≤ sale.endDate)
    (hev : EventRepoGetByID db req.eventId = some event)
    (happ : event.status = .approved)
    (hq : req.quantity ≤ (FindAndLockAvailableTickets db req.eventId req.price
      req.ttype req.isVip req.title req.place req.saleId req.quantity).length)
    (hamt : 0 < req.price * (req.quantity : Int))
    (hfreshPay : ∀ p ∈ db.payments, p.id ≠ db.nextId) :
    PurchaseTicketFromGroup schedAll false now req db =
      (.error (.paymentFailed "Payment failed - insufficient funds or card declined"),
       { db with
         payments := db.payments ++
           [{ id := db.nextId, userId := req.userId, userType := 0, date := now,
              ptype := req.paymentMethod,
              amount := req.price * (req.quantity : Int), status := .failed,
              description := "Ticket purchase for " ++ req.title ++ " - " ++ event.title,
              eventId := 0 }],
         nextId := db.nextId + 1 })
    ∧ ∀ t ∈ FindAndLockAvailableTickets db req.eventId req.price req.ttype
        req.isVip req.title req.place req.saleId req.quantity, t.isSold = false := by
  constructor
  · have hact : ¬(now < sale.startDate ∨ now > sale.endDate) := by omega
    have hns : ¬((FindAndLockAvailableTickets db req.eventId req.price req.ttype
        req.isVip req.title req.place req.saleId req.quantity).length < req.quantity) :=
      not_lt.mpr hq
    unfold PurchaseTicketFromGroup
    rw [hsale]
    simp only [hact, if_false, reduceIte]
    rw [hev]
    simp only [happ, ne_eq, not_true_eq_false, if_false, reduceIte, hns]
    unfold ProcessPayment
    rw [if_neg (not_le.mpr hamt)]
    simp only [tryWrite, schedAll, if_true, reduceIte]
    unfold processMockPayment
    simp only [tryWrite, schedAll, if_true, reduceIte, Bool.false_eq_true]
    simp only [DB.paymentCreate, DB.paymentUpdate, List.map_append, List.map_cons,
      List.map_nil, if_pos rfl]
    rw [map_keyed_update_id Payment.id db.nextId _ db.payments hfreshPay]
    simp
  · intro t htmem
    have hfil := List.mem_of_mem_take htmem
    rcases List.mem_filter.mp hfil with ⟨_, hcond⟩
    simp only [Bool.and_eq_true, beq_iff_eq] at hcond
    exact hcond.1.2

/-- C8: with the date and ownership validations passed, sale creation and
update are rejected with the overlap error exactly when some other window of
the same event satisfies `s1 < e2 ∧ s2 < e1` against the proposed dates, and
accepted (the row committed) when no such window exists. -/
theorem sale_window_overlap_rule
    (db : DB) (now : Int) (sellerId : Nat) (sched : Sched)
    (req : CreateSaleRequest) (event : Event)
    (hs : now < req.startDate) (he : req.startDate < req.endDate)
    (hev : EventRepoGetByID db req.eventId = some event)
    (hown : event.sellerId = sellerId) (happ : event.status = .approved)
    (saleId : Nat) (usale : Sale) (ureq : UpdateSaleRequest) (uevent : Event)
    (husale : SaleRepoGetByID db saleId = some usale)
    (huev : EventRepoGetByID db usale.eventId = some uevent)
    (huown : uevent.sellerId = sellerId)
    (hnotactive : isSaleActive usale now = false)
    (hus : ureq.startDate ≠ 0) (hue : ureq.endDate ≠ 0)
    (husf : now < ureq.startDate) (huse : ureq.startDate < ureq.endDate) :
    ((CreateSale sched now req sellerId db).1 = .error .saleDatesOverlap ↔
      ∃ s ∈ db.sales, s.eventId = req.eventId ∧
        req.startDate < s.endDate ∧ s.startDate < req.endDate)
    ∧ ((UpdateSale sched now saleId sellerId ureq db).1 = .error .saleDatesOverlap ↔
      ∃ s ∈ db.sales, s.eventId = usale.eventId ∧ s.id ≠ saleId ∧
        ureq.startDate < s.endDate ∧ s.startDate < ureq.endDate)
    ∧ (sched 0 = true →
      ¬(∃ s ∈ db.sales, s.eventId = req.eventId ∧
          req.startDate < s.endDate ∧ s.startDate < req.endDate) →
      (CreateSale sched now req sellerId db).1 =
        .ok { id := db.nextId, startDate := req.startDate,
              endDate := req.endDate, eventId := req.eventId })
    ∧ (sched 0 = true →
      ¬(∃ s ∈ db.sales, s.eventId = usale.eventId ∧ s.id ≠ saleId ∧
          ureq.startDate < s.endDate ∧ s.startDate < ureq.endDate) →
      (UpdateSale sched now saleId sellerId ureq db).1 =
        .ok { usale with startDate := ureq.startDate, endDate := ureq.endDate }) := by
  have hcany : (SaleRepoListByEvent db req.eventId).any (fun s =>
      datesOverlap req.startDate req.endDate s.startDate s.endDate) = true ↔
      ∃ s ∈ db.sales, s.eventId = req.eventId ∧
        req.startDate < s.endDate ∧ s.startDate < req.endDate := by
    simp only [SaleRepoListByEvent, List.any_eq_true, List.mem_filter, datesOverlap,
      Bool.and_eq_true, decide_eq_true_eq, beq_iff_eq]
    constructor
    · rintro ⟨s, ⟨hmem, hevq⟩, h1, h2⟩
      exact ⟨s, hmem, hevq, h1, h2⟩
    · rintro ⟨s, hmem, hevq, h1, h2⟩
      exact ⟨s, ⟨hmem, hevq⟩, h1, h2⟩
  have huany : (SaleRepoListByEvent db usale.eventId).any (fun s =>
      s.id ≠ saleId && datesOverlap ureq.startDate ureq.endDate s.startDate s.endDate)
        = true ↔
      ∃ s ∈ db.sales, s.eventId = usale.eventId ∧ s.id ≠ saleId ∧
        ureq.startDate < s.endDate ∧ s.startDate < ureq.endDate := by
    simp only [SaleRepoListByEvent, List.any_eq_true, List.mem_filter, datesOverlap,
      Bool.and_eq_true, decide_eq_true_eq, beq_iff_eq, ne_eq]
    constructor
    · rintro ⟨s, ⟨hmem, hevq⟩, hid, h1, h2⟩
      exact ⟨s, hmem, hevq, hid, h1, h2⟩
    · rintro ⟨s, hmem, hevq, hid, h1, h2⟩
      exact ⟨s, ⟨hmem, hevq⟩, hid, h1, h2⟩
  have hcreateEq : CreateSale sched now req sellerId db =
      (if (SaleRepoListByEvent db req.eventId).any (fun s =>
          datesOverlap req.startDate req.endDate s.startDate s.endDate) then
        ((.error .saleDatesOverlap : Except Err Sale), db)
      else
        match tryWrite sched ⟨db, 0⟩ (DB.saleCreate
            { id := db.nextId, startDate := req.startDate,
              endDate := req.endDate, eventId := req.eventId }) with
        | none => (.error .failedToCreateSale, db)
        | some st1 => (Except.ok ({ id := db.nextId, startDate := req.startDate, endDate := req.endDate, eventId := req.eventId } : Sale), st1.db)) := by
    have h1 : ¬ (req.startDate ≤ now) := not_le.mpr hs
    have h2 : ¬ (req.endDate ≤ req.startDate) := not_le.mpr he
    unfold CreateSale
    rw [if_neg h1, if_neg h2, hev]
    simp only [hown, happ, ne_eq, not_true_eq_false, if_false, reduceIte]
  have hupdateEq : UpdateSale sched now saleId sellerId ureq db =
      (if (SaleRepoListByEvent db usale.eventId).any (fun s =>
          s.id ≠ saleId && datesOverlap ureq.startDate ureq.endDate
            s.startDate s.endDate) then
        ((.error .saleDatesOverlap : Except Err Sale), db)
      else
        match tryWrite sched ⟨db, 0⟩ (DB.saleUpdate
            { usale with startDate := ureq.startDate, endDate := ureq.endDate }) with
        | none => (.error .failedToUpdateSale, db)
        | some st1 => (Except.ok ({ usale with startDate := ureq.startDate, endDate := ureq.endDate } : Sale), st1.db)) := by
    have h3 : ¬ (ureq.startDate ≠ 0 ∧ ureq.startDate ≤ now) :=
      fun h => absurd h.2 (not_le.mpr husf)
    unfold UpdateSale
    rw [husale]
    simp only
    rw [huev]
    simp only [huown, ne_eq, not_true_eq_false, if_false, reduceIte, hnotactive,
      Bool.false_eq_true]
    rw [if_neg h3, if_pos hus, if_pos hue, if_neg (not_le.mpr huse)]
  refine ⟨?_, ?_, ?_, ?_⟩
  · rw [hcreateEq]
    by_cases hany : (SaleRepoListByEvent db req.eventId).any (fun s =>
        datesOverlap req.startDate req.endDate s.startDate s.endDate)
    · simp only [hany, if_true, reduceIte]
      simpa using hcany.mp hany
    · simp only [hany, Bool.false_eq_true, if_false, reduceIte]
      constructor
      · intro hcontra
        exfalso
        cases htw : tryWrite sched ⟨db, 0⟩ (DB.saleCreate
            { id := db.nextId, startDate := req.startDate,
              endDate := req.endDate, eventId := req.eventId }) with
        | none => rw [htw] at hcontra; simp at hcontra
        | some st1 => rw [htw] at hcontra; simp at hcontra
      · intro hex
        exact absurd (hcany.mpr hex) hany
  · rw [hupdateEq]
    by_cases hany : (SaleRepoListByEvent db usale.eventId).any (fun s =>
        s.id ≠ saleId && datesOverlap ureq.startDate ureq.endDate
          s.startDate s.endDate)
    · simp only [hany, if_true, reduceIte]
      simpa using huany.mp hany
    · simp only [hany, Bool.false_eq_true, if_false, reduceIte]
      constructor
      · intro hcontra
        exfalso
        cases htw : tryWrite sched ⟨db, 0⟩ (DB.saleUpdate
            { usale with startDate := ureq.startDate, endDate := ureq.endDate }) with
        | none => rw [htw] at hcontra; simp at hcontra
        | some st1 => rw [htw] at hcontra; simp at hcontra
      · intro hex
        exact absurd (huany.mpr hex) hany
  · intro hsched hno
    rw [hcreateEq]
    have hany : (SaleRepoListByEvent db req.eventId).any (fun s =>
        datesOverlap req.startDate req.endDate s.startDate s.endDate) = false := by
      by_contra hcontra
      exact hno (hcany.mp (by simpa using hcontra))
    simp only [hany, Bool.false_eq_true, if_false, reduceIte, tryWrite, hsched,
      if_true, reduceIte]
  · intro hsched hno
    rw [hupdateEq]
    have hany : (SaleRepoListByEvent db usale.eventId).any (fun s =>
        s.id ≠ saleId && datesOverlap ureq.startDate ureq.endDate
          s.startDate s.endDate) = false := by
      by_contra hcontra
      exact hno (huany.mp (by simpa using hcontra))
    simp only [hany, Bool.false_eq_true, if_false, reduceIte, tryWrite, hsched,
      if_true, reduceIte]

theorem tryWrite_some {sched : Sched} {st st' : St} {f : DB → DB}
    (h : tryWrite sched st f = some st') : st' = ⟨f st.db, st.writes + 1⟩ := by
  unfold tryWrite at h
  by_cases hc : sched st.writes = true
  · rw [if_pos hc] at h
    exact (Option.some.inj h).symm
  · rw [if_neg hc] at h
    exact absurd h (by simp)

theorem tickets_processMockPayment (sched : Sched) (gw : Bool) (now : Int)
    (p : Payment) (st : St) :
    (processMockPayment sched gw now p st).2.db.tickets = st.db.tickets := by
  unfold processMockPayment
  by_cases hgw : gw = true
  · simp only [hgw, if_true, reduceIte]
    cases h : tryWrite sched st (DB.paymentUpdate { p with status := .completed }) with
    | none => rfl
    | some st1 => rw [tryWrite_some h]; rfl
  · simp only [hgw, Bool.false_eq_true, if_false, reduceIte]
    cases h : tryWrite sched st (DB.paymentUpdate { p with status := .failed }) with
    | none => rfl
    | some st1 => rw [tryWrite_some h]; rfl

theorem tickets_createSellerPayment (sched : Sched) (now : Int) (eventId : Nat)
    (amount : Int) (description : String) (st : St) :
    (createSellerPayment sched now eventId amount description st).2.db.tickets
      = st.db.tickets := by
  unfold createSellerPayment
  cases hev : EventRepoGetByID st.db eventId with
  | none => rfl
  | some event =>
    simp only
    cases h : tryWrite sched st (DB.paymentCreate
        { id := st.db.nextId, userId := event.sellerId, userType := 2, date := now,
          ptype := 1, amount := amount * 95 / 100, status := .completed,
          description := "Revenue from: " ++ description, eventId := eventId }) with
    | none => rfl
    | some st1 => rw [tryWrite_some h]; rfl

theorem tickets_ProcessPayment (sched : Sched) (gw : Bool) (now : Int)
    (mockMode : Bool) (req : PaymentRequest) (st : St) :
    (ProcessPayment sched gw now mockMode req st).2.db.tickets = st.db.tickets := by
  unfold ProcessPayment
  by_cases hamt : req.amount ≤ 0
  · rw [if_pos hamt]
  · rw [if_neg hamt]
    dsimp only
    cases h : tryWrite sched st (DB.paymentCreate
        { id := st.db.nextId, userId := req.userId, userType := req.userType,
          date := now, ptype := req.paymentMethod, amount := req.amount,
          status := .pending, description := req.description,
          eventId := req.eventId }) with
    | none => rfl
    | some st1 =>
      simp only
      have hst1 : st1.db.tickets = st.db.tickets := by
        rw [tryWrite_some h]; rfl
      by_cases hmock : mockMode = true
      · simp only [hmock, if_true, reduceIte]
        cases hmp : processMockPayment sched gw now
            { id := st.db.nextId, userId := req.userId, userType := req.userType,
              date := now, ptype := req.paymentMethod, amount := req.amount,
              status := .pending, description := req.description,
              eventId := req.eventId } st1 with
        | mk res st2 =>
          have hst2 : st2.db.tickets = st1.db.tickets := by
            have := tickets_processMockPayment sched gw now
              { id := st.db.nextId, userId := req.userId, userType := req.userType,
                date := now, ptype := req.paymentMethod, amount := req.amount,
                status := .pending, description := req.description,
                eventId := req.eventId } st1
            rw [hmp] at this
            exact this
          cases res with
          | error e => simpa [hst2] using hst1
          | ok resp =>
            simp only
            by_cases hc : resp.status = PaymentStatus.completed ∧ 0 < req.eventId
            · rw [if_pos hc]
              have := tickets_createSellerPayment sched now req.eventId req.amount
                req.description st2
              rw [this, hst2, hst1]
            · rw [if_neg hc]
              rw [hst2, hst1]
      · simp only [hmock, Bool.false_eq_true, if_false, reduceIte]
        exact hst1

theorem tickets_AcceptTransfer (sched : Sched) (now : Int)
    (transferId userId : Nat) (db : DB) :
    (AcceptTransfer sched now transferId userId db).2.tickets = db.tickets := by
  unfold AcceptTransfer
  cases h1 : TransferRepoGetActiveByID db transferId with
  | none => rfl
  | some transfer =>
    simp only
    by_cases h2 : transfer.toUserId ≠ userId
    · rw [if_pos h2]
    · rw [if_neg h2]
      by_cases h3 : transfer.status ≠ TransferStatus.pending
      · rw [if_pos h3]
      · rw [if_neg h3]
        cases h4 : tryWrite sched ⟨db, 0⟩
            (DB.activeUpdate { transfer with status := .accepted }) with
        | none => rfl
        | some st1 =>
          have hst1 : st1.db.tickets = db.tickets := by
            rw [tryWrite_some h4]; rfl
          simp only
          cases h5 : PurchasedRepoGetByID st1.db transfer.purchasedTicketId with
          | none => exact hst1
          | some purchasedTicket =>
            simp only
            cases h6 : tryWrite sched st1 (DB.purchasedUpdate
                { purchasedTicket with userId := transfer.toUserId }) with
            | none => exact hst1
            | some st2 =>
              have hst2 : st2.db.tickets = db.tickets := by
                rw [tryWrite_some h6]
                exact hst1
              simp only
              cases h7 : tryWrite sched st2 (DB.doneCreate
                  { id := st2.db.nextId, fromUserId := transfer.fromUserId,
                    toUserId := transfer.toUserId, date := transfer.date,
                    purchasedTicketId := transfer.purchasedTicketId,
                    completedAt := now }) with
              | none => exact hst2
              | some st3 =>
                rw [tryWrite_some h7]
                exact hst2

theorem tickets_RejectTransfer (sched : Sched) (transferId userId : Nat)
    (db : DB) :
    (RejectTransfer sched transferId userId db).2.tickets = db.tickets := by
  unfold RejectTransfer
  cases h1 : TransferRepoGetActiveByID db transferId with
  | none => rfl
  | some transfer =>
    simp only
    by_cases h2 : transfer.toUserId ≠ userId
    · rw [if_pos h2]
    · rw [if_neg h2]
      by_cases h3 : transfer.status ≠ TransferStatus.pending
      · rw [if_pos h3]
      · rw [if_neg h3]
        cases h4 : tryWrite sched ⟨db, 0⟩
            (DB.activeUpdate { transfer with status := .rejected }) with
        | none => rfl
        | some st1 => rw [tryWrite_some h4]; rfl

theorem tickets_InitiateTransfer (sched : Sched) (now : Int)
    (req : InitiateTransferRequest) (db : DB) :
    (InitiateTransfer sched now req db).2.tickets = db.tickets := by
  unfold InitiateTransfer
  cases h1 : PurchasedRepoGetByID db req.purchasedTicketId with
  | none => rfl
  | some purchasedTicket =>
    simp only
    by_cases h2 : purchasedTicket.userId ≠ req.fromUserId
    · rw [if_pos h2]
    · rw [if_neg h2]
      by_cases h3 : purchasedTicket.isUsed = true
      · simp only [h3, if_true, reduceIte]
      · simp only [h3, Bool.false_eq_true, if_false, reduceIte]
        cases h4 : UserRepoGetByEmail db req.toUserEmail with
        | none => rfl
        | some toUser =>
          simp only
          by_cases h5 : toUser.id = req.fromUserId
          · rw [if_pos h5]
          · rw [if_neg h5]
            cases h6 : tryWrite sched ⟨db, 0⟩ (DB.activeCreate
                { id := db.nextId, fromUserId := req.fromUserId,
                  toUserId := toUser.id, date := now,
                  purchasedTicketId := req.purchasedTicketId,
                  status := .pending }) with
            | none => rfl
            | some st1 => rw [tryWrite_some h6]; rfl

theorem tickets_RefundPayment (sched : Sched) (paymentId : Nat) (db : DB) :
    (RefundPayment sched paymentId db).2.tickets = db.tickets := by
  unfold RefundPayment
  cases h1 : PaymentRepoGetByID db paymentId with
  | none => rfl
  | some p =>
    simp only
    by_cases h2 : p.status ≠ PaymentStatus.completed
    · rw [if_pos h2]
    · rw [if_neg h2]
      cases h3 : tryWrite sched ⟨db, 0⟩ (DB.paymentUpdate { p with status := .refunded }) with
      | none => rfl
      | some st1 => rw [tryWrite_some h3]; rfl

theorem tickets_CreateSale (sched : Sched) (now : Int) (req : CreateSaleRequest)
    (sellerId : Nat) (db : DB) :
    (CreateSale sched now req sellerId db).2.tickets = db.tickets := by
  unfold CreateSale
  by_cases h1 : req.startDate ≤ now
  · rw [if_pos h1]
  · rw [if_neg h1]
    by_cases h2 : req.endDate ≤ req.startDate
    · rw [if_pos h2]
    · rw [if_neg h2]
      cases h3 : EventRepoGetByID db req.eventId with
      | none => rfl
      | some event =>
        simp only
        by_cases h4 : event.sellerId ≠ sellerId
        · rw [if_pos h4]
        · rw [if_neg h4]
          by_cases h5 : event.status ≠ EventStatus.approved
          · rw [if_pos h5]
          · rw [if_neg h5]
            by_cases h6 : (SaleRepoListByEvent db req.eventId).any (fun s =>
                datesOverlap req.startDate req.endDate s.startDate s.endDate)
            · simp only [h6, if_true, reduceIte]
            · simp only [h6, Bool.false_eq_true, if_false, reduceIte]
              cases h7 : tryWrite sched ⟨db, 0⟩ (DB.saleCreate
                  { id := db.nextId, startDate := req.startDate,
                    endDate := req.endDate, eventId := req.eventId }) with
              | none => rfl
              | some st1 => rw [tryWrite_some h7]; rfl

theorem tickets_UpdateSale (sched : Sched) (now : Int) (saleId sellerId : Nat)
    (req : UpdateSaleRequest) (db : DB) :
    (UpdateSale sched now saleId sellerId req db).2.tickets = db.tickets := by
  unfold UpdateSale
  cases h1 : SaleRepoGetByID db saleId with
  | none => rfl
  | some sale =>
    simp only
    cases h2 : EventRepoGetByID db sale.eventId with
    | none => rfl
    | some event =>
      simp only
      by_cases h3 : event.sellerId ≠ sellerId
      · rw [if_pos h3]
      · rw [if_neg h3]
        by_cases h4 : isSaleActive sale now = true
        · simp only [h4, if_true, reduceIte]
        · simp only [h4, Bool.false_eq_true, if_false, reduceIte]
          by_cases h5 : req.startDate ≠ 0 ∧ req.startDate ≤ now
          · rw [if_pos h5]
          · rw [if_neg h5]
            try dsimp only
            repeat' split
            all_goals
              first
                | rfl
                | (rename_i st1 h8
                   rw [tryWrite_some h8]
                   rfl)

theorem sellLoop_soldMonotone (orig : List Ticket) (sched : Sched)
    (userId : Nat) (event : Event) :
    ∀ (ts : List Ticket) (st : St), soldMonotone orig st.db.tickets →
      soldMonotone orig (sellLoop sched userId event ts st).2.db.tickets := by
  intro ts
  induction ts with
  | nil => intro st h; exact h
  | cons t rest ih =>
    intro st h
    unfold sellLoop
    cases htw : tryWrite sched st (DB.ticketUpdate { t with isSold := true }) with
    | none => exact h
    | some st1 =>
      have h1 : soldMonotone orig st1.db.tickets := by
        rw [tryWrite_some htw]
        exact soldMonotone_update_sold h rfl
      simp only
      try dsimp only
      cases hpc : tryWrite sched st1 (DB.purchasedCreate
          { id := st1.db.nextId, price := t.price, ttype := t.ttype,
            isVip := t.isVip, title := t.title, description := t.description,
            place := t.place, userId := userId, ticketId := t.id,
            isUsed := false, usedAt := none }) with
      | none => exact h1
      | some st2 =>
        have h2 : soldMonotone orig st2.db.tickets := by
          rw [tryWrite_some hpc]
          exact h1
        simp only
        cases hrec : sellLoop sched userId event rest st2 with
        | mk res st3 =>
          have hmono := ih st2 h2
          rw [hrec] at hmono
          cases res with
          | error e => exact hmono
          | ok infos => exact hmono

theorem createLoop_soldMonotone (orig : List Ticket) (sched : Sched)
    (req : CreateTicketRequest) :
    ∀ (n : Nat) (st : St), soldMonotone orig st.db.tickets →
      (∀ t0 ∈ orig, t0.isSold = true → t0.id < st.db.nextId) →
      soldMonotone orig (createLoop sched req n st).2.db.tickets := by
  intro n
  induction n with
  | zero => intro st h _; exact h
  | succ m ih =>
    intro st h hlt
    unfold createLoop
    try dsimp only
    cases htw : tryWrite sched st (DB.ticketCreate
        { id := st.db.nextId, price := req.price, isHeld := false, isSold := false,
          ttype := req.ttype, isVip := req.isVip, title := req.title,
          description := req.description, place := req.place,
          saleId := req.saleId, eventId := req.eventId }) with
    | none => exact h
    | some st1 =>
      apply ih st1
      · rw [tryWrite_some htw]
        exact soldMonotone_append_freshId h
          (fun t0 ht0 hs0 => Nat.ne_of_gt (hlt t0 ht0 hs0))
      · intro t0 ht0 hs0
        rw [tryWrite_some htw]
        exact Nat.lt_succ_of_lt (hlt t0 ht0 hs0)

theorem updLoop_soldMonotone (orig : List Ticket) (sched : Sched)
    (eventId : Nat) (req : UpdateTicketRequest) :
    ∀ (ts : List Ticket) (st : St), soldMonotone orig st.db.tickets →
      (∀ t ∈ ts, ∀ t0 ∈ orig, t0.isSold = true → t.id ≠ t0.id) →
      soldMonotone orig (updLoop sched eventId req ts st).2.db.tickets := by
  intro ts
  induction ts with
  | nil => intro st h _; exact h
  | cons t rest ih =>
    intro st h hid
    have hidt : ∀ t0 ∈ orig, t0.isSold = true → t.id ≠ t0.id :=
      hid t (List.mem_cons_self t rest)
    have hidrest : ∀ t' ∈ rest, ∀ t0 ∈ orig, t0.isSold = true → t'.id ≠ t0.id :=
      fun t' ht' => hid t' (List.mem_cons_of_mem t ht')
    unfold updLoop
    try dsimp only
    cases hs : req.saleId with
    | none =>
      try dsimp only
      cases htw : tryWrite sched st (DB.ticketUpdate (applyTicketPatch req t)) with
      | none => exact h
      | some st1 =>
        apply ih st1 _ hidrest
        rw [tryWrite_some htw]
        exact soldMonotone_update_freshId h hidt
    | some sid =>
      try dsimp only
      cases hlook : SaleRepoGetByID st.db sid with
      | none => exact h
      | some sale =>
        simp only
        by_cases hof : sale.eventId ≠ eventId
        · rw [if_pos hof]; exact h
        · rw [if_neg hof]
          cases htw : tryWrite sched st
              (DB.ticketUpdate { applyTicketPatch req t with saleId := sid }) with
          | none => exact h
          | some st1 =>
            apply ih st1 _ hidrest
            rw [tryWrite_some htw]
            exact soldMonotone_update_freshId h hidt

theorem delLoop_soldMonotone (orig : List Ticket) (sched : Sched) :
    ∀ (ts : List Ticket) (st : St), soldMonotone orig st.db.tickets →
      soldMonotone orig (delLoop sched ts st).2.db.tickets := by
  intro ts
  induction ts with
  | nil => intro st h; exact h
  | cons t rest ih =>
    intro st h
    unfold delLoop
    cases htw : tryWrite sched st (DB.ticketDelete t.id) with
    | none => exact h
    | some st1 =>
      apply ih st1
      rw [tryWrite_some htw]
      exact soldMonotone_filter h _

theorem mem_ListByGroupCriteria_unsold {db : DB} {eventId : Nat} {price : Int}
    {ttype : TicketType} {isVip : Bool} {title place : String} {saleId : Nat}
    {t : Ticket}
    (h : t ∈ ListByGroupCriteria db eventId price ttype isVip title place saleId false) :
    t ∈ db.tickets ∧ t.isSold = false := by
  rcases List.mem_filter.mp h with ⟨hmem, hcond⟩
  simp only [Bool.and_eq_true, Bool.or_eq_true, beq_iff_eq] at hcond
  rcases hcond.2 with hfalse | hunsold
  · exact absurd hfalse (by simp)
  · exact ⟨hmem, hunsold⟩

theorem soldMonotone_purchase_group (sched : Sched) (gw : Bool) (now : Int)
    (req : PurchaseTicketFromGroupRequest) (db : DB)
    (hnodup : (db.tickets.map Ticket.id).Nodup) :
    soldMonotone db.tickets (PurchaseTicketFromGroup sched gw now req db).2.tickets := by
  have h0 : soldMonotone db.tickets db.tickets := soldMonotone_rfl hnodup
  unfold PurchaseTicketFromGroup
  cases hsale : SaleRepoGetByID db req.saleId with
  | none => exact h0
  | some sale =>
    simp only
    by_cases hwin : now < sale.startDate ∨ now > sale.endDate
    · rw [if_pos hwin]; exact h0
    · rw [if_neg hwin]
      cases hev : EventRepoGetByID db req.eventId with
      | none => exact h0
      | some event =>
        simp only
        by_cases happ : event.status ≠ EventStatus.approved
        · rw [if_pos happ]; exact h0
        · rw [if_neg happ]
          try dsimp only
          by_cases hshort : (FindAndLockAvailableTickets db req.eventId req.price
              req.ttype req.isVip req.title req.place req.saleId
              req.quantity).length < req.quantity
          · rw [if_pos hshort]; exact h0
          · rw [if_neg hshort]
            cases hpp : ProcessPayment sched gw now true
                { userId := req.userId, userType := 0,
                  amount := req.price * (req.quantity : Int),
                  paymentMethod := req.paymentMethod,
                  description := "Ticket purchase for " ++ req.title ++ " - " ++ event.title,
                  eventId := 0 } ⟨db, 0⟩ with
            | mk res st1 =>
              have hticks : st1.db.tickets = db.tickets := by
                have hp := tickets_ProcessPayment sched gw now true
                  { userId := req.userId, userType := 0,
                    amount := req.price * (req.quantity : Int),
                    paymentMethod := req.paymentMethod,
                    description := "Ticket purchase for " ++ req.title ++ " - " ++ event.title,
                    eventId := 0 } ⟨db, 0⟩
                rw [hpp] at hp
                exact hp
              cases res with
              | error e =>
                simp only
                rw [hticks]
                exact h0
              | ok resp =>
                simp only
                by_cases hst : resp.status ≠ PaymentStatus.completed
                · rw [if_pos hst]
                  rw [hticks]
                  exact h0
                · rw [if_neg hst]
                  cases hsl : sellLoop sched req.userId event
                      (List.take req.quantity (FindAndLockAvailableTickets db
                        req.eventId req.price req.ttype req.isVip req.title
                        req.place req.saleId req.quantity)) st1 with
                  | mk res2 st2 =>
                    have hmono := sellLoop_soldMonotone db.tickets sched
                      req.userId event (List.take req.quantity
                        (FindAndLockAvailableTickets db req.eventId req.price
                          req.ttype req.isVip req.title req.place req.saleId
                          req.quantity)) st1 (by rw [hticks]; exact h0)
                    rw [hsl] at hmono
                    cases res2 with
                    | error e => exact hmono
                    | ok infos => exact hmono

theorem soldMonotone_purchase_legacy (sched : Sched) (gw : Bool) (now : Int)
    (req : PurchaseTicketRequest) (db : DB)
    (hnodup : (db.tickets.map Ticket.id).Nodup) :
    soldMonotone db.tickets (PurchaseTicket sched gw now req db).2.tickets := by
  have h0 : soldMonotone db.tickets db.tickets := soldMonotone_rfl hnodup
  unfold PurchaseTicket
  cases htk : TicketRepoGetByID db req.ticketId with
  | none => exact h0
  | some ticket =>
    simp only
    by_cases hav : (ticket.isSold || ticket.isHeld) = true
    · rw [if_pos hav]; exact h0
    · rw [if_neg hav]
      cases hsale : SaleRepoGetByID db ticket.saleId with
      | none => exact h0
      | some sale =>
        simp only
        by_cases hwin : now < sale.startDate ∨ now > sale.endDate
        · rw [if_pos hwin]; exact h0
        · rw [if_neg hwin]
          by_cases hqty : 1 < req.quantity
          · rw [if_pos hqty]; exact h0
          · rw [if_neg hqty]
            try dsimp only
            cases hpp : ProcessPayment sched gw now true
                { userId := req.userId, userType := 0,
                  amount := ticket.price * (req.quantity : Int),
                  paymentMethod := req.paymentMethod,
                  description := "Ticket purchase for " ++ ticket.title,
                  eventId := 0 } ⟨db, 0⟩ with
            | mk res st1 =>
              have hticks : st1.db.tickets = db.tickets := by
                have hp := tickets_ProcessPayment sched gw now true
                  { userId := req.userId, userType := 0,
                    amount := ticket.price * (req.quantity : Int),
                    paymentMethod := req.paymentMethod,
                    description := "Ticket purchase for " ++ ticket.title,
                    eventId := 0 } ⟨db, 0⟩
                rw [hpp] at hp
                exact hp
              cases res with
              | error e =>
                simp only
                rw [hticks]
                exact h0
              | ok resp =>
                simp only
                by_cases hst : resp.status ≠ PaymentStatus.completed
                · rw [if_pos hst]
                  rw [hticks]
                  exact h0
                · rw [if_neg hst]
                  cases htw : tryWrite sched st1
                      (DB.ticketUpdate { ticket with isSold := true }) with
                  | none =>
                    rw [hticks]
                    exact h0
                  | some st2 =>
                    have h2 : soldMonotone db.tickets st2.db.tickets := by
                      rw [tryWrite_some htw]
                      exact soldMonotone_update_sold (by rw [hticks]; exact h0) rfl
                    simp only
                    try dsimp only
                    cases hpc : tryWrite sched st2 (DB.purchasedCreate
                        { id := st2.db.nextId, price := ticket.price,
                          ttype := ticket.ttype, isVip := ticket.isVip,
                          title := ticket.title, description := ticket.description,
                          place := ticket.place, userId := req.userId,
                          ticketId := ticket.id, isUsed := false,
                          usedAt := none }) with
                    | none => exact h2
                    | some st3 =>
                      have h3 : soldMonotone db.tickets st3.db.tickets := by
                        rw [tryWrite_some hpc]
                        exact h2
                      exact h3

theorem soldMonotone_create_tickets (sched : Sched) (req : CreateTicketRequest)
    (sellerId : Nat) (db : DB)
    (hnodup : (db.tickets.map Ticket.id).Nodup)
    (hfresh : ∀ t ∈ db.tickets, t.id < db.nextId) :
    soldMonotone db.tickets (CreateTickets sched req sellerId db).2.tickets := by
  have h0 : soldMonotone db.tickets db.tickets := soldMonotone_rfl hnodup
  unfold CreateTickets
  cases hev : EventRepoGetByID db req.eventId with
  | none => exact h0
  | some event =>
    simp only
    by_cases hown : event.sellerId ≠ sellerId
    · rw [if_pos hown]; exact h0
    · rw [if_neg hown]
      cases hsl : SaleRepoGetByID db req.saleId with
      | none => exact h0
      | some sale =>
        simp only
        by_cases hof : sale.eventId ≠ req.eventId
        · rw [if_pos hof]; exact h0
        · rw [if_neg hof]
          try dsimp only
          exact createLoop_soldMonotone db.tickets sched req req.amount ⟨db, 0⟩
            h0 (fun t0 ht0 _ => hfresh t0 ht0)

theorem soldMonotone_update_tickets (sched : Sched) (eventId sellerId : Nat)
    (old : GroupedTicket) (req : UpdateTicketRequest) (db : DB)
    (hnodup : (db.tickets.map Ticket.id).Nodup) :
    soldMonotone db.tickets (UpdateTickets sched eventId sellerId old req db).2.tickets := by
  have h0 : soldMonotone db.tickets db.tickets := soldMonotone_rfl hnodup
  unfold UpdateTickets
  cases hev : EventRepoGetByID db eventId with
  | none => exact h0
  | some event =>
    simp only
    by_cases hown : event.sellerId ≠ sellerId
    · rw [if_pos hown]; exact h0
    · rw [if_neg hown]
      try dsimp only
      by_cases hlen : (ListByGroupCriteria db eventId old.price old.ttype
          old.isVip old.title old.place old.saleId false).length = 0
      · rw [if_pos hlen]; exact h0
      · rw [if_neg hlen]
        apply updLoop_soldMonotone db.tickets sched eventId req _ ⟨db, 0⟩ h0
        intro t ht t0 ht0 hs0 hideq
        rcases mem_ListByGroupCriteria_unsold ht with ⟨hmem, hunsold⟩
        have heq := List.inj_on_of_nodup_map hnodup hmem ht0 hideq
        rw [heq] at hunsold
        rw [hs0] at hunsold
        exact absurd hunsold (by simp)

theorem soldMonotone_delete_tickets (sched : Sched) (eventId sellerId : Nat)
    (groupedTicket : GroupedTicket) (db : DB)
    (hnodup : (db.tickets.map Ticket.id).Nodup) :
    soldMonotone db.tickets (DeleteTickets sched eventId sellerId groupedTicket db).2.tickets := by
  have h0 : soldMonotone db.tickets db.tickets := soldMonotone_rfl hnodup
  unfold DeleteTickets
  cases hev : EventRepoGetByID db eventId with
  | none => exact h0
  | some event =>
    simp only
    by_cases hown : event.sellerId ≠ sellerId
    · rw [if_pos hown]; exact h0
    · rw [if_neg hown]
      try dsimp only
      by_cases hlen : (ListByGroupCriteria db eventId groupedTicket.price
          groupedTicket.ttype groupedTicket.isVip groupedTicket.title
          groupedTicket.place groupedTicket.saleId false).length = 0
      · rw [if_pos hlen]; exact h0
      · rw [if_neg hlen]
        exact delLoop_soldMonotone db.tickets sched _ ⟨db, 0⟩ h0

/-- C9: the `sold` flag of a ticket unit is monotone across every modelled
operation of the system — grouped and legacy purchase, seller create, update
and delete of tickets, transfer initiate, accept and reject, payment refund,
and sale-window create and update: each either leaves a unit's sold flag
unchanged or sets it from false to true; none resets it from true to false,
whatever the fault schedule does. -/
theorem sold_flag_monotone
    (db : DB) (hnodup : (db.tickets.map Ticket.id).Nodup)
    (hfresh : ∀ t ∈ db.tickets, t.id < db.nextId)
    (sched : Sched) (gw : Bool) (now : Int)
    (gReq : PurchaseTicketFromGroupRequest) (pReq : PurchaseTicketRequest)
    (cReq : CreateTicketRequest) (old gkey : GroupedTicket)
    (uReq : UpdateTicketRequest) (iReq : InitiateTransferRequest)
    (eventId sellerId transferId userId paymentId saleId : Nat)
    (csReq : CreateSaleRequest) (usReq : UpdateSaleRequest) :
    soldMonotone db.tickets (PurchaseTicketFromGroup sched gw now gReq db).2.tickets
    ∧ soldMonotone db.tickets (PurchaseTicket sched gw now pReq db).2.tickets
    ∧ soldMonotone db.tickets (CreateTickets sched cReq sellerId db).2.tickets
    ∧ soldMonotone db.tickets (UpdateTickets sched eventId sellerId old uReq db).2.tickets
    ∧ soldMonotone db.tickets (DeleteTickets sched eventId sellerId gkey db).2.tickets
    ∧ soldMonotone db.tickets (AcceptTransfer sched now transferId userId db).2.tickets
    ∧ soldMonotone db.tickets (RejectTransfer sched transferId userId db).2.tickets
    ∧ soldMonotone db.tickets (InitiateTransfer sched now iReq db).2.tickets
    ∧ soldMonotone db.tickets (RefundPayment sched paymentId db).2.tickets
    ∧ soldMonotone db.tickets (CreateSale sched now csReq sellerId db).2.tickets
    ∧ soldMonotone db.tickets (UpdateSale sched now saleId sellerId usReq db).2.tickets := by
  have h0 : soldMonotone db.tickets db.tickets := soldMonotone_rfl hnodup
  refine ⟨soldMonotone_purchase_group sched gw now gReq db hnodup,
    soldMonotone_purchase_legacy sched gw now pReq db hnodup,
    soldMonotone_create_tickets sched cReq sellerId db hnodup hfresh,
    soldMonotone_update_tickets sched eventId sellerId old uReq db hnodup,
    soldMonotone_delete_tickets sched eventId sellerId gkey db hnodup,
    ?_, ?_, ?_, ?_, ?_, ?_⟩
  · rw [tickets_AcceptTransfer]; exact h0
  · rw [tickets_RejectTransfer]; exact h0
  · rw [tickets_InitiateTransfer]; exact h0
  · rw [tickets_RefundPayment]; exact h0
  · rw [tickets_CreateSale]; exact h0
  · rw [tickets_UpdateSale]; exact h0

/-! Concrete stores and schedules for the counterexamples and witnesses. -/

/-- A store with one approved event, one sale window `[0, 100]` and two
available units of one ticket group. -/
def dbTwoUnits : DB :=
  { tickets := [
      { id := 11, price := 50, isHeld := false, isSold := false, ttype := 1,
        isVip := false, title := "A", description := "", place := "P",
        saleId := 1, eventId := 1 },
      { id := 12, price := 50, isHeld := false, isSold := false, ttype := 1,
        isVip := false, title := "A", description := "", place := "P",
        saleId := 1, eventId := 1 }],
    purchased := [],
    sales := [{ id := 1, startDate := 0, endDate := 100, eventId := 1 }],
    events := [{ id := 1, title := "Gig", description := "", date := 1000,
                 address := "Addr", sellerId := 9, status := .approved }],
    payments := [], activeTransfers := [], doneTransfers := [], users := [],
    nextId := 100 }

/-- A grouped purchase of two units of the group of `dbTwoUnits`. -/
def reqTwo : PurchaseTicketFromGroupRequest :=
  { userId := 7, eventId := 1, price := 50, ttype := 1, isVip := false,
    title := "A", description := "", place := "P", saleId := 1, quantity := 2,
    paymentMethod := 1 }

/-- A schedule whose sixth repository write (the creation of the second
PurchasedTicket snapshot) fails; every other write succeeds. -/
def schedFailSixth : Sched := fun k => k != 5

/-- C1: the grouped purchase flow is not transactional.  With gateway success
and a failure on the very last write (the second unit's snapshot insert), the
flow returns an error but leaves unit 12 with `sold = true` and no
PurchasedTicket pointing at it — and the first unit's sale fully committed.
The row locks cannot protect this step either: `FindAndLockAvailableTickets`
commits its own transaction (releasing the locks) before the payment step. -/
theorem purchase_group_partial_commit_bug :
    ((PurchaseTicketFromGroup schedFailSixth true 10 reqTwo dbTwoUnits).1 =
      .error .failedToCreatePurchasedTicket)
    ∧ (∃ t ∈ (PurchaseTicketFromGroup schedFailSixth true 10 reqTwo dbTwoUnits).2.tickets,
        t.id = 12 ∧ t.isSold = true)
    ∧ (∀ p ∈ (PurchaseTicketFromGroup schedFailSixth true 10 reqTwo dbTwoUnits).2.purchased,
        p.ticketId ≠ 12)
    ∧ (∃ p ∈ (PurchaseTicketFromGroup schedFailSixth true 10 reqTwo dbTwoUnits).2.purchased,
        p.ticketId = 11) := by
  refine ⟨rfl, ?_, ?_, ?_⟩ <;> decide

/-- A store with one purchased ticket (id 5, owned by user 1) and one Pending
transfer of it (id 1) from user 1 to user 2. -/
def dbPendingTransfer : DB :=
  { tickets := [], purchased := [
      { id := 5, price := 50, ttype := 1, isVip := false, title := "A",
        description := "", place := "P", userId := 1, ticketId := 12,
        isUsed := false, usedAt := none }],
    sales := [], events := [], payments := [],
    activeTransfers := [
      { id := 1, fromUserId := 1, toUserId := 2, date := 5,
        purchasedTicketId := 5, status := .pending }],
    doneTransfers := [],
    users := [{ id := 1, email := "a@x.com" }, { id := 2, email := "b@x.com" }],
    nextId := 100 }

/-- A schedule whose second repository write (the ownership update of the
accept flow) fails; the first (the status update) succeeds. -/
def schedFailSecond : Sched := fun k => k == 0

/-- C3: the accept flow is not atomic.  With the recipient accepting a
Pending transfer and the ownership write failing after the status write
committed, the accept returns an error yet the TransferRecord is left
Accepted while the PurchasedTicket still belongs to the sender and no
DoneTransfer entry exists — a partial application of the effect. -/
theorem accept_transfer_partial_apply_bug :
    ((AcceptTransfer schedFailSecond 99 1 2 dbPendingTransfer).1 =
      .error .failedToTransferOwnership)
    ∧ (∃ tr ∈ (AcceptTransfer schedFailSecond 99 1 2 dbPendingTransfer).2.activeTransfers,
        tr.id = 1 ∧ tr.status = .accepted)
    ∧ (∀ p ∈ (AcceptTransfer schedFailSecond 99 1 2 dbPendingTransfer).2.purchased,
        p.id = 5 → p.userId = 1)
    ∧ (AcceptTransfer schedFailSecond 99 1 2 dbPendingTransfer).2.doneTransfers = [] := by
  refine ⟨rfl, ?_, ?_, rfl⟩ <;> decide

/-- C4: initiating a transfer for a ticket that already has a Pending
transfer succeeds and creates a second Pending record: `InitiateTransfer`
never consults `HasActiveTransferForTicket`, so the one-pending-per-ticket
invariant is not enforced. -/
theorem initiate_transfer_duplicate_pending_bug :
    HasActiveTransferForTicket dbPendingTransfer 5 = true
    ∧ (∃ resp, (InitiateTransfer schedAll 60
        { fromUserId := 1, toUserEmail := "b@x.com", purchasedTicketId := 5 }
        dbPendingTransfer).1 = .ok resp)
    ∧ ((InitiateTransfer schedAll 60
        { fromUserId := 1, toUserEmail := "b@x.com", purchasedTicketId := 5 }
        dbPendingTransfer).2.activeTransfers.filter (fun tr =>
          tr.purchasedTicketId == 5 && tr.status == TransferStatus.pending)).length = 2 := by
  refine ⟨rfl, ⟨{ id := 100, status := .pending, date := 60 }, rfl⟩, rfl⟩

/-- A grouped purchase of three units, one more than `dbTwoUnits` holds. -/
def reqThree : PurchaseTicketFromGroupRequest := { reqTwo with quantity := 3 }

theorem purchase_group_insufficient_inventory_witness :
    PurchaseTicketFromGroup schedAll true 10 reqThree dbTwoUnits =
      (.error .notEnoughTickets, dbTwoUnits) :=
  purchase_group_insufficient_inventory_no_effect schedAll true 10 reqThree
    dbTwoUnits { id := 1, startDate := 0, endDate := 100, eventId := 1 }
    { id := 1, title := "Gig", description := "", date := 1000, address := "Addr",
      sellerId := 9, status := .approved }
    rfl (by decide) (by decide) rfl rfl (by decide)

theorem purchase_group_gateway_failure_witness :
    (PurchaseTicketFromGroup schedAll false 10 reqTwo dbTwoUnits).1 =
      .error (.paymentFailed "Payment failed - insufficient funds or card declined")
    ∧ (PurchaseTicketFromGroup schedAll false 10 reqTwo dbTwoUnits).2.tickets =
        dbTwoUnits.tickets
    ∧ (PurchaseTicketFromGroup schedAll false 10 reqTwo dbTwoUnits).2.purchased = [] := by
  have h := purchase_group_gateway_failure_no_effect 10 reqTwo dbTwoUnits
    { id := 1, startDate := 0, endDate := 100, eventId := 1 }
    { id := 1, title := "Gig", description := "", date := 1000, address := "Addr",
      sellerId := 9, status := .approved }
    rfl (by decide) (by decide) rfl rfl (by decide) (by decide) (by decide)
  refine ⟨?_, ?_, ?_⟩ <;> rw [h.1]
  rfl

/-- A store whose only transfer record is already Accepted. -/
def dbDoneTransfer : DB :=
  { dbPendingTransfer with activeTransfers := [
      { id := 3, fromUserId := 1, toUserId := 2, date := 5,
        purchasedTicketId := 5, status := .accepted }] }

theorem transfer_terminal_state_frozen_witness :
    AcceptTransfer schedAll 99 3 2 dbDoneTransfer =
      (.error .transferNotPending, dbDoneTransfer)
    ∧ RejectTransfer schedAll 3 2 dbDoneTransfer =
      (.error .transferNotPending, dbDoneTransfer) :=
  transfer_terminal_state_frozen schedAll 99 dbDoneTransfer 3 2
    { id := 3, fromUserId := 1, toUserId := 2, date := 5,
      purchasedTicketId := 5, status := .accepted }
    rfl rfl (Or.inl rfl)

theorem purchase_sale_window_gate_witness :
    (PurchaseTicketFromGroup schedAll true 200 reqTwo dbTwoUnits).1 =
      .error .saleNotActive
    ∧ (PurchaseTicketFromGroup schedAll true 10 reqTwo dbTwoUnits).1 ≠
      .error .saleNotActive := by
  constructor
  · exact (purchase_sale_window_gate schedAll true 200 reqTwo dbTwoUnits
      { id := 1, startDate := 0, endDate := 100, eventId := 1 } rfl).1 (by decide)
  · exact (purchase_sale_window_gate schedAll true 10 reqTwo dbTwoUnits
      { id := 1, startDate := 0, endDate := 100, eventId := 1 } rfl).2
      (by decide) (by decide)

/-- `dbTwoUnits` extended with a second, later sale window for the event. -/
def dbTwoSales : DB :=
  { dbTwoUnits with sales := [
      { id := 1, startDate := 0, endDate := 100, eventId := 1 },
      { id := 2, startDate := 200, endDate := 300, eventId := 1 }] }

theorem sale_window_overlap_rule_witness :
    (CreateSale schedAll (-5) { startDate := 50, endDate := 150, eventId := 1 }
        9 dbTwoSales).1 = .error .saleDatesOverlap
    ∧ (UpdateSale schedAll (-5) 1 9 { startDate := 150, endDate := 250 }
        dbTwoSales).1 = .error .saleDatesOverlap := by
  have h := sale_window_overlap_rule dbTwoSales (-5) 9 schedAll
    { startDate := 50, endDate := 150, eventId := 1 }
    { id := 1, title := "Gig", description := "", date := 1000, address := "Addr",
      sellerId := 9, status := .approved }
    (by decide) (by decide) rfl rfl rfl
    1 { id := 1, startDate := 0, endDate := 100, eventId := 1 }
    { startDate := 150, endDate := 250 }
    { id := 1, title := "Gig", description := "", date := 1000, address := "Addr",
      sellerId := 9, status := .approved }
    rfl rfl rfl (by decide) (by decide) (by decide) (by decide) (by decide)
  exact ⟨h.1.mpr ⟨{ id := 1, startDate := 0, endDate := 100, eventId := 1 },
           by decide, by decide, by decide, by decide⟩,
         h.2.1.mpr ⟨{ id := 2, startDate := 200, endDate := 300, eventId := 1 },
           by decide, by decide, by decide, by decide, by decide⟩⟩

theorem sold_flag_monotone_witness :
    soldMonotone dbTwoUnits.tickets
      (PurchaseTicketFromGroup schedAll true 10 reqTwo dbTwoUnits).2.tickets :=
  (sold_flag_monotone dbTwoUnits (by decide) (by decide) schedAll true 10
    reqTwo { userId := 7, ticketId := 11, quantity := 1, paymentMethod := 1 }
    { price := 50, ttype := 1, isVip := false, title := "A", description := "",
      place := "P", saleId := 1, eventId := 1, amount := 2 }
    { price := 50, ttype := 1, isVip := false, title := "A", description := "",
      place := "P", saleId := 1, eventId := 1 }
    { price := 50, ttype := 1, isVip := false, title := "A", description := "",
      place := "P", saleId := 1, eventId := 1 }
    { price := none, ttype := none, isVip := none, title := none,
      description := none, place := none, saleId := none }
    { fromUserId := 1, toUserEmail := "b@x.com", purchasedTicketId := 5 }
    1 9 1 2 1 1
    { startDate := 50, endDate := 150, eventId := 1 }
    { startDate := 150, endDate := 250 }).1

theorem process_payment_positive_amount_guard_witness :
    ProcessPayment schedAll true 10 true
      { userId := 7, userType := 0, amount := 0, paymentMethod := 1,
        description := "d", eventId := 0 } ⟨dbTwoUnits, 0⟩ =
      (.error .paymentAmountNotPositive, ⟨dbTwoUnits, 0⟩) :=
  (process_payment_positive_amount_guard schedAll true 10 true
    { userId := 7, userType := 0, amount := 0, paymentMethod := 1,
      description := "d", eventId := 0 } ⟨dbTwoUnits, 0⟩).1 (by decide)

end ETicketing
